import Mathlib

/-!
# truenas_incus_ctl: dataset and snapshot command handlers

A shallow embedding of the command handlers of `cmd/dataset.go` and
`cmd/snapshot.go`.  A handler is a function from its flags, its argument list
and the answers of the remote service to a `Run`: the remote calls it issued,
in order, the tables it printed, and how it returned.

The functions of package `core` and of the other files of package `cmd` are not
in the two source files.  They are the fields of `Env`, and the statements
below are proved for every `Env`.  What `GetCobraFlags` returned is an input of
the handlers that test its error, and the flag set itself for those that drop
the error.

Go strings are modelled by `String`.  The byte-level tests of the handlers look
for the ASCII characters ' ', ':', '@' and '/', which occur in a UTF-8 string
exactly where they occur as bytes.  Machine integers are those of a 64-bit
platform.
-/

namespace TruenasIncusCtl

/-! ## Data model -/

/-- A dynamically typed Go value (`interface{}`) as it is put in a request payload. -/
inductive Value where
  | bool (b : Bool)
  | int (i : Int)
  | str (s : String)
  | list (items : List Value)
  | map (entries : List (String × Value))

/-- A Go `map[string]string`, as the sequence of its entries in the order a `range` visits them. -/
abbrev StrMap := List (String × String)

/-- A Go `map[string]interface{}`, as the sequence of its entries. -/
abbrev AnyMap := List (String × Value)

/-- A Go `map[string][]string`, the enumeration tables of a command family. -/
abbrev EnumTable := List (String × List String)

/-- The flags of one invocation, as `GetCobraFlags` returns them. -/
structure FlagSet where
  allFlags : StrMap
  usedFlags : StrMap

/-- The struct `typeQueryParams` that the handlers fill in for `QueryApi`. -/
structure typeQueryParams where
  valueOrder : List String
  shouldGetAllProps : Bool
  shouldGetUserProps : Bool
  shouldRecurse : Bool

/-- The response of `QueryApi`; only its field `resultsMap` is read by the handlers. -/
structure QueryResponse where
  resultsMap : List (String × AnyMap)

/-- One call to the remote service, with the arguments the handler passed. -/
inductive Call where
  | QueryApi (object : String) (args types properties : List String) (extras : typeQueryParams)
  | MaybeBulkApiCall (method : String) (timeout : Int) (params : List Value)
      (objRemap : List (String × List Value)) (bestEffort : Bool)
  | ApiCall (method : String) (timeout : Int) (params : List Value)

/-- The remote service (`core.Session`): the answer to a call may depend on every
call issued so far, so each answer is a function of the calls up to and including
the one being answered. -/
structure Session where
  QueryApi : List Call → Except String QueryResponse
  MaybeBulkApiCall : List Call → Except String String
  ApiCall : List Call → Except String String

/-- How a handler can fail: it returns an error with a message, or it stops in a
runtime panic (an index out of range). -/
inductive Failure where
  | err (msg : String)
  | panic

/-- How a handler returned: `.ok ()` stands for the Go result `nil`. -/
abbrev Result := Except Failure Unit

/-- What an invocation of a handler did. -/
structure Run where
  calls : List Call
  printed : List String
  result : Result

/-- The functions the handlers call that are declared outside the two source files.
`WriteKvArrayToMapFailed` is the contents of the map after a call of `WriteKvArrayToMap`
that returned an error, for the one caller that drops the error. -/
structure Env where
  IdentifyObject : String → String × String
  IsStringTrue : StrMap → String → Bool
  ParseSizeString : String → Except String Int
  ToAnyArray : List String → List Value
  StringRepeated : String → Nat → List String
  BuildTableData : String → String → List String → List AnyMap → String × Option String
  RemoveFlag : FlagSet → String → FlagSet
  ConvertParamsStringToKvArray : String → List String
  WriteKvArrayToMap : AnyMap → List String → EnumTable → Except String AnyMap
  ParseStringAndValidate : String → String → EnumTable → Except String Value
  BuildValueOrder : Bool → List String
  BuildNameStrAndPropertiesJson : FlagSet → String → List Value
  GetTableFormat : StrMap → Except String String
  EnumerateOutputProperties : StrMap → List String
  GetListFromQueryResponse : QueryResponse → List AnyMap
  LowerCaseValuesFromEnums : List AnyMap → EnumTable → List AnyMap
  GetUsedPropertyColumns : List AnyMap → List String → List String
  g_datasetCreateUpdateEnums : EnumTable
  MaybeCopyProperty : AnyMap → StrMap → String → AnyMap
  WriteKvArrayToMapFailed : AnyMap → List String → EnumTable → AnyMap
  defaultCallTimeout : Int

/-! ## Machine integers -/

/-- The value of a 64-bit signed integer computation whose exact result is `x`
(two's complement wrap-around, as for Go's `int` and `int64` on a 64-bit platform). -/
def wrapInt64 (x : Int) : Int :=
  (x + 2 ^ 63) % 2 ^ 64 - 2 ^ 63

/-! ## `deleteDataset` (dataset.go, lines 339-371) -/

/-- The call of line 364, for `args[0] = arg0`: method `pool.dataset.delete` with the
timeout computed so far. -/
def deleteCall (env : Env) (options : FlagSet) (arg0 : String) (args : List String)
    (timeout : Int) : Call :=
  Call.MaybeBulkApiCall "pool.dataset.delete" timeout
    (env.BuildNameStrAndPropertiesJson options arg0) [("", env.ToAnyArray args)] false

/-- The tail of `deleteDataset` (lines 361-370): the one `pool.dataset.delete` call,
issued after the calls `before`; `args[0]` is out of range for an empty `args`. -/
def deleteDatasetCall (env : Env) (api : Session) (options : FlagSet) (args : List String)
    (before : List Call) (timeout : Int) : Run :=
  match args with
  | [] => ⟨before, [], .error .panic⟩
  | arg0 :: _ =>
    match api.MaybeBulkApiCall (before ++ [deleteCall env options arg0 args timeout]) with
    | .error e => ⟨before ++ [deleteCall env options arg0 args timeout], [], .error (.err e)⟩
    | .ok _ => ⟨before ++ [deleteCall env options arg0 args timeout], [], .ok ()⟩

/-- The recursive listing that `deleteDataset` issues to size its timeout (lines 348-354). -/
def deleteDatasetListing (env : Env) (args : List String) : Call :=
  Call.QueryApi "pool.dataset" args (env.StringRepeated "name" args.length) []
    { valueOrder := env.BuildValueOrder true
      shouldGetAllProps := false
      shouldGetUserProps := false
      shouldRecurse := true }

/-- The timeout that `deleteDataset` derives from a listing of `n` entries (line 358):
`int64(10 + 10*len(response.resultsMap))`. -/
def smartTimeout (n : Nat) : Int :=
  wrapInt64 (10 + 10 * (n : Int))

/-- The handler `deleteDataset`. -/
def deleteDataset (env : Env) (api : Session) (options : FlagSet) (args : List String) : Run :=
  if env.IsStringTrue options.allFlags "no_smart_timeout" then
    deleteDatasetCall env api (env.RemoveFlag options "no_smart_timeout") args [] 20
  else if env.IsStringTrue options.allFlags "recursive" then
    match api.QueryApi [deleteDatasetListing env args] with
    | .error e => ⟨[deleteDatasetListing env args], [], .error (.err e)⟩
    | .ok response =>
      deleteDatasetCall env api options args [deleteDatasetListing env args]
        (smartTimeout response.resultsMap.length)
  else
    deleteDatasetCall env api options args [] 20

/-! ## Strings and maps -/

/-- The Go call `strings.Index(s, c)` for a one-character needle `c`: the position of the
first occurrence of `c` in `s`, or `-1` when there is none. -/
def stringsIndex (s : String) (c : Char) : Int :=
  if c ∈ s.data then (s.data.indexOf c : Int) else -1

/-- The Go expression `strings.Split(use, " ")[0]`: the text before the first blank. -/
def cmdTypeOf (use : String) : String :=
  String.mk (use.data.takeWhile (fun c => c != ' '))

/-- The Go test `_, exists := m[k]`. -/
def hasKey {α : Type} (m : List (String × α)) (k : String) : Bool :=
  m.any (fun entry => entry.1 == k)

/-- The Go assignment `m[k] = v`: the entry of `k` is overwritten, or added when absent. -/
def mapSet (m : AnyMap) (k : String) (v : Value) : AnyMap :=
  if hasKey m k then m.map (fun entry => if entry.1 == k then (k, v) else entry)
  else m ++ [(k, v)]

/-- The pieces of `cs` between the occurrences of `sep`, as `strings.Split` cuts a
string at a one-character separator. -/
def splitChars (sep : Char) : List Char → List (List Char)
  | [] => [[]]
  | c :: cs =>
    match splitChars sep cs with
    | [] => [[c]]
    | piece :: pieces => if c = sep then [] :: piece :: pieces else (c :: piece) :: pieces

/-- The Go map read `m[k]` on a `map[string]string`: the empty string for an absent key. -/
def mapGet (m : StrMap) (k : String) : String :=
  (m.lookup k).getD ""

/-- The Go call `strings.HasPrefix(s, p)`. -/
def stringsHasPrefix (s p : String) : Bool :=
  p.data.isPrefixOf s.data

/-- The field `Use` of `datasetCreateCmd` (line 26). -/
def datasetCreateCmdUse : String := "create <dataset>..."

/-- The field `Use` of `datasetUpdateCmd` (line 32). -/
def datasetUpdateCmdUse : String := "update <dataset>..."

/-! ## `createOrUpdateDataset` (dataset.go, lines 184-337) -/

/-- The classification loop of lines 195-204, from argument `args` on: the specs and
their type tags, or the error of the first argument that is not a dataset. -/
def identifyDatasets (env : Env) (cmdType : String) :
    List String → Except String (List String × List String)
  | [] => .ok ([], [])
  | ds :: rest =>
    let idType := (env.IdentifyObject ds).1
    let spec := (env.IdentifyObject ds).2
    if idType != "dataset" then
      .error ("dataset " ++ cmdType ++ " only operates on datasets (" ++ spec ++ " is a "
        ++ idType ++ ")")
    else
      match identifyDatasets env cmdType rest with
      | .error e => .error e
      | .ok (specs, types) => .ok (spec :: specs, "name" :: types)

/-- One round of the loop over `options.usedFlags` (lines 217-258): the switch on
`propName`, acting on `outMap` and `userPropsStr`. -/
def encodeFlag (env : Env) (outMap : AnyMap) (userPropsStr : String)
    (propName valueStr : String) : Except String (AnyMap × String) :=
  if propName = "create_parents" then
    .ok (mapSet outMap "create_ancestors" (.bool (valueStr == "true")), userPropsStr)
  else if propName = "quota" ∨ propName = "refquota" ∨ propName = "reservation"
      ∨ propName = "refreservation" ∨ propName = "special-small-block-size"
      ∨ propName = "volsize" then
    match env.ParseSizeString valueStr with
    | .error e => .error ("Failed to parse " ++ propName ++ ": " ++ e)
    | .ok size =>
      if size < 0 then
        .error ("Failed to parse " ++ propName ++ ": negative numbers are not permitted")
      else
        .ok (mapSet outMap propName (.int size), userPropsStr)
  else if propName = "user_props" then
    .ok (outMap, valueStr)
  else if propName = "option" then
    match env.WriteKvArrayToMap outMap (env.ConvertParamsStringToKvArray valueStr)
        env.g_datasetCreateUpdateEnums with
    | .error e => .error e
    | .ok outMap2 => .ok (outMap2, userPropsStr)
  else
    match env.ParseStringAndValidate propName valueStr env.g_datasetCreateUpdateEnums with
    | .error e => .error e
    | .ok value => .ok (mapSet outMap propName value, userPropsStr)

/-- The loop over `options.usedFlags` (lines 217-258), in the order the `range` visits
the entries; it stops at the first error. -/
def encodeFlags (env : Env) (outMap : AnyMap) (userPropsStr : String) :
    StrMap → Except String (AnyMap × String)
  | [] => .ok (outMap, userPropsStr)
  | (propName, valueStr) :: rest =>
    match encodeFlag env outMap userPropsStr propName valueStr with
    | .error e => .error e
    | .ok (outMap2, userPropsStr2) => encodeFlags env outMap2 userPropsStr2 rest

/-- The loop of lines 263-272 over the pairs of `kvParams`, appending to `userPropsArr`;
`kvParams[i+1]` is out of range when a key has no value. -/
def userPropsLoop (env : Env) (userPropsArr : List Value) :
    List String → Except Failure (List Value)
  | [] => .ok userPropsArr
  | [_] => .error .panic
  | key :: raw :: rest =>
    match env.ParseStringAndValidate key raw env.g_datasetCreateUpdateEnums with
    | .error e => .error (.err e)
    | .ok value =>
      userPropsLoop env (userPropsArr ++ [.map [("key", .str key), ("value", value)]]) rest

/-- Lines 260-274: the entry `user_properties` of `outMap`, written when `userPropsStr`
is not empty. -/
def addUserProps (env : Env) (outMap : AnyMap) (userPropsStr : String) :
    Except Failure AnyMap :=
  if userPropsStr != "" then
    match userPropsLoop env [] (env.ConvertParamsStringToKvArray userPropsStr) with
    | .error f => .error f
    | .ok userPropsArr => .ok (mapSet outMap "user_properties" (.list userPropsArr))
  else
    .ok outMap

/-- Lines 190-274 after the classification: the payload `outMap` built from the flags of
the invocation. -/
def buildPayload (env : Env) (options : FlagSet) : Except Failure AnyMap :=
  let options2 := env.RemoveFlag (env.RemoveFlag options "create") "allow_shrinking"
  match encodeFlags env [] "" options2.usedFlags with
  | .error e => .error (.err e)
  | .ok (outMap, userPropsStr) => addUserProps env outMap userPropsStr

/-- The loop of lines 297-307 over `specs`, appending to `listToCreate` and
`listToUpdate`; without `flagCreate` it stops at the first spec that is not a key of
`resultsMap`. -/
def splitExisting (flagCreate : Bool) (resultsMap : List (String × AnyMap))
    (listToCreate listToUpdate : List String) :
    List String → Except String (List String × List String)
  | [] => .ok (listToCreate, listToUpdate)
  | spec :: rest =>
    if hasKey resultsMap spec then
      splitExisting flagCreate resultsMap listToCreate (listToUpdate ++ [spec]) rest
    else if !flagCreate then
      .error ("Could not find dataset \"" ++ spec ++ "\".\n"
        ++ "Try passing -c or --create to create a dataset if it doesn't exist.")
    else
      splitExisting flagCreate resultsMap (listToCreate ++ [spec]) listToUpdate rest

/-- The existence query of lines 284-290. -/
def existenceQuery (env : Env) (specs types : List String) : Call :=
  Call.QueryApi "pool.dataset" specs types []
    { valueOrder := env.BuildValueOrder true
      shouldGetAllProps := false
      shouldGetUserProps := false
      shouldRecurse := false }

/-- The call of line 314. -/
def updateCall (env : Env) (outMap : AnyMap) (listToUpdate : List String) : Call :=
  Call.MaybeBulkApiCall "pool.dataset.update" 10 [.map outMap]
    [("", env.ToAnyArray listToUpdate)] false

/-- Lines 322-326: the entry `type` of the payload of a create call. -/
def withType (outMap : AnyMap) : AnyMap :=
  if hasKey outMap "volsize" then mapSet outMap "type" (.str "VOLUME")
  else mapSet outMap "type" (.str "FILESYSTEM")

/-- The call of line 329. -/
def createCall (env : Env) (outMap : AnyMap) (listToCreate : List String) : Call :=
  Call.MaybeBulkApiCall "pool.dataset.create" 10 [.map (withType outMap)]
    [("name", env.ToAnyArray listToCreate)] false

/-- Lines 321-336: the create call, issued after the calls `before` when `listToCreate`
is not empty. -/
def issueCreate (env : Env) (api : Session) (outMap : AnyMap) (listToCreate : List String)
    (before : List Call) : Run :=
  if listToCreate.length > 0 then
    match api.MaybeBulkApiCall (before ++ [createCall env outMap listToCreate]) with
    | .error e => ⟨before ++ [createCall env outMap listToCreate], [], .error (.err e)⟩
    | .ok _ => ⟨before ++ [createCall env outMap listToCreate], [], .ok ()⟩
  else
    ⟨before, [], .ok ()⟩

/-- Lines 312-336: the update call, when `listToUpdate` is not empty, and then the
create call, when `listToCreate` is not empty. -/
def issueCalls (env : Env) (api : Session) (outMap : AnyMap)
    (listToCreate listToUpdate : List String) (before : List Call) : Run :=
  if listToUpdate.length > 0 then
    match api.MaybeBulkApiCall (before ++ [updateCall env outMap listToUpdate]) with
    | .error e => ⟨before ++ [updateCall env outMap listToUpdate], [], .error (.err e)⟩
    | .ok _ =>
      issueCreate env api outMap listToCreate (before ++ [updateCall env outMap listToUpdate])
  else
    issueCreate env api outMap listToCreate before

/-- Lines 278-336: which specs to create and which to update, and the calls. -/
def dispatch (env : Env) (api : Session) (cmdType : String) (flagCreate : Bool)
    (outMap : AnyMap) (specs types : List String) : Run :=
  if cmdType = "create" then
    issueCalls env api outMap specs [] []
  else if specs.length > 1 ∨ flagCreate = true then
    match api.QueryApi [existenceQuery env specs types] with
    | .error e => ⟨[existenceQuery env specs types], [], .error (.err e)⟩
    | .ok response =>
      match splitExisting flagCreate response.resultsMap [] [] specs with
      | .error e => ⟨[existenceQuery env specs types], [], .error (.err e)⟩
      | .ok (listToCreate, listToUpdate) =>
        issueCalls env api outMap listToCreate listToUpdate [existenceQuery env specs types]
  else
    issueCalls env api outMap [] specs []

/-- The handler `createOrUpdateDataset` of the commands `dataset create` and
`dataset update`; `use` is the field `Use` of the command and `flags` what
`GetCobraFlags` returned for the invocation. -/
def createOrUpdateDataset (env : Env) (api : Session) (use : String)
    (flags : Except String FlagSet) (args : List String) : Run :=
  let cmdType := cmdTypeOf use
  if cmdType != "create" && cmdType != "update" then
    ⟨[], [], .error (.err "cmdType was not create or update")⟩
  else
    match flags with
    | .error e => ⟨[], [], .error (.err e)⟩
    | .ok options =>
      match identifyDatasets env cmdType args with
      | .error e => ⟨[], [], .error (.err e)⟩
      | .ok (specs, types) =>
        let flagCreate := env.IsStringTrue options.allFlags "create"
        match buildPayload env options with
        | .error f => ⟨[], [], .error f⟩
        | .ok outMap => dispatch env api cmdType flagCreate outMap specs types

/-! ## The list handlers (dataset.go, lines 373-518; snapshot.go, lines 248-321) -/

/-- The loop of `getDatasetListTypes` (lines 502-515), from argument `args` on: the
type list and the arguments as the loop leaves them, or the error of the first
argument that is refused. -/
def getDatasetListTypesLoop (env : Env) : List String → Except String (List String × List String)
  | [] => .ok ([], [])
  | arg :: rest =>
    let t := (env.IdentifyObject arg).1
    let value := (env.IdentifyObject arg).2
    if t = "id" ∨ t = "share" then
      .error "querying datasets based on mount point is not yet supported"
    else if t = "snapshot" ∨ t = "snapshot_only" then
      .error "querying datasets based on shapshot is not yet supported"
    else if t = "dataset" then
      match getDatasetListTypesLoop env rest with
      | .error e => .error e
      | .ok (typeList, args2) => .ok ("name" :: typeList, value :: args2)
    else if t ≠ "pool" then
      .error ("Unrecognised namespec \"" ++ arg ++ "\"")
    else
      match getDatasetListTypesLoop env rest with
      | .error e => .error e
      | .ok (typeList, args2) => .ok (t :: typeList, value :: args2)

/-- The function `getDatasetListTypes`: the type list it returns, together with the
contents of the slice `args` after the call (the function overwrites `args[i]`). -/
def getDatasetListTypes (env : Env) (args : List String) :
    Except String (List String × List String) :=
  if args.length = 0 then .ok ([], args)
  else getDatasetListTypesLoop env args

/-- The loop of `getSnapshotListTypes` (lines 305-318), from argument `args` on. -/
def getSnapshotListTypesLoop (env : Env) : List String → Except String (List String × List String)
  | [] => .ok ([], [])
  | arg :: rest =>
    let t := (env.IdentifyObject arg).1
    let value := (env.IdentifyObject arg).2
    if t = "id" ∨ t = "share" then
      .error "querying snapshots based on mount point is not yet supported"
    else if t = "snapshot" then
      match getSnapshotListTypesLoop env rest with
      | .error e => .error e
      | .ok (typeList, args2) => .ok ("name" :: typeList, value :: args2)
    else if t = "snapshot_only" then
      match getSnapshotListTypesLoop env rest with
      | .error e => .error e
      | .ok (typeList, args2) => .ok ("snapshot_name" :: typeList, value :: args2)
    else if t ≠ "dataset" ∧ t ≠ "pool" then
      .error ("Unrecognised namespec \"" ++ arg ++ "\"")
    else
      match getSnapshotListTypesLoop env rest with
      | .error e => .error e
      | .ok (typeList, args2) => .ok (t :: typeList, value :: args2)

/-- The function `getSnapshotListTypes`: the type list it returns, together with the
contents of the slice `args` after the call. -/
def getSnapshotListTypes (env : Env) (args : List String) :
    Except String (List String × List String) :=
  if args.length = 0 then .ok ([], args)
  else getSnapshotListTypesLoop env args

/-- The loop of lines 400-405 of dataset.go: `shouldGetUserProps` is switched on at the
first property whose name has a ':'. -/
def forceUserProps (extras : typeQueryParams) : List String → typeQueryParams
  | [] => extras
  | prop :: rest =>
    if stringsIndex prop ':' ≥ 0 then { extras with shouldGetUserProps := true }
    else forceUserProps extras rest

/-- Lines 415-423 of dataset.go and 283-291 of snapshot.go: the columns of the table. -/
def columnsOf (env : Env) (extras : typeQueryParams) (properties : List String)
    (records : List AnyMap) : List String :=
  if extras.shouldGetAllProps then env.GetUsedPropertyColumns records ["name"]
  else if properties.length > 0 then properties
  else ["name"]

/-- Lines 425-427 of dataset.go and 293-295 of snapshot.go: the table is built and
printed, and the error of `BuildTableData` is the result of the handler. -/
def printTable (env : Env) (format label : String) (columnsList : List String)
    (records : List AnyMap) (before : List Call) : Run :=
  match env.BuildTableData format label columnsList records with
  | (str, none) => ⟨before, [str], .ok ()⟩
  | (str, some e) => ⟨before, [str], .error (.err e)⟩

/-- The query parameters that `listDataset` passes to `QueryApi` (lines 393-405), for
the slice `args` as `getDatasetListTypes` left it. -/
def listDatasetExtras (env : Env) (options : FlagSet) (args properties : List String) :
    typeQueryParams :=
  forceUserProps
    { valueOrder := env.BuildValueOrder (env.IsStringTrue options.allFlags "parsable")
      shouldGetAllProps := env.IsStringTrue options.allFlags "all"
      shouldGetUserProps := env.IsStringTrue options.allFlags "user_properties"
      shouldRecurse := args.length == 0 || env.IsStringTrue options.allFlags "recursive" }
    properties

/-- The handler `listDataset`; `flags` is what `GetCobraFlags` returned. -/
def listDataset (env : Env) (api : Session) (flags : Except String FlagSet)
    (args : List String) : Run :=
  match flags with
  | .error e => ⟨[], [], .error (.err e)⟩
  | .ok options =>
    match env.GetTableFormat options.allFlags with
    | .error e => ⟨[], [], .error (.err e)⟩
    | .ok format =>
      let properties := env.EnumerateOutputProperties options.allFlags
      match getDatasetListTypes env args with
      | .error e => ⟨[], [], .error (.err e)⟩
      | .ok (idTypes, args2) =>
        let extras := listDatasetExtras env options args2 properties
        let query := Call.QueryApi "pool.dataset" args2 idTypes properties extras
        match api.QueryApi [query] with
        | .error e => ⟨[query], [], .error (.err e)⟩
        | .ok response =>
          let datasets := env.LowerCaseValuesFromEnums (env.GetListFromQueryResponse response)
            env.g_datasetCreateUpdateEnums
          printTable env format "datasets" (columnsOf env extras properties datasets) datasets
            [query]

/-- The query parameters that `listSnapshot` passes to `QueryApi` (lines 268-273), for
the slice `args` as `getSnapshotListTypes` left it. -/
def listSnapshotExtras (env : Env) (options : FlagSet) (args : List String) :
    typeQueryParams :=
  { valueOrder := env.BuildValueOrder (env.IsStringTrue options.allFlags "parsable")
    shouldGetAllProps := env.IsStringTrue options.allFlags "all"
    shouldGetUserProps := false
    shouldRecurse := args.length == 0 || env.IsStringTrue options.allFlags "recursive" }

/-- The handler `listSnapshot`; `flags` is what `GetCobraFlags` returned. -/
def listSnapshot (env : Env) (api : Session) (flags : Except String FlagSet)
    (args : List String) : Run :=
  match flags with
  | .error e => ⟨[], [], .error (.err e)⟩
  | .ok options =>
    match env.GetTableFormat options.allFlags with
    | .error e => ⟨[], [], .error (.err e)⟩
    | .ok format =>
      let properties := env.EnumerateOutputProperties options.allFlags
      match getSnapshotListTypes env args with
      | .error e => ⟨[], [], .error (.err e)⟩
      | .ok (idTypes, args2) =>
        let extras := listSnapshotExtras env options args2
        let query := Call.QueryApi "zfs.snapshot" args2 idTypes properties extras
        match api.QueryApi [query] with
        | .error e => ⟨[query], [], .error (.err e)⟩
        | .ok response =>
          let snapshots := env.GetListFromQueryResponse response
          printTable env format "snapshots" (columnsOf env extras properties snapshots)
            snapshots [query]

/-! ## The snapshot handlers (snapshot.go, lines 126-246) -/

/-- The field `Use` of `snapshotDeleteCmd` (line 36). -/
def snapshotDeleteCmdUse : String := "delete <dataset>@<snapshot>..."

/-- The field `Use` of `snapshotRollbackCmd` (line 56). -/
def snapshotRollbackCmdUse : String := "rollback <old dataset>@<old snapshot>"

/-- The loop of `createSnapshot` (lines 131-146), from argument `args` on: the lists
`datasetList` and `nameList`, or the error of the first argument that is refused. -/
def splitSnapshotArgs : List String → Except String (List String × List String)
  | [] => .ok ([], [])
  | snapshot :: rest =>
    let datasetLen := stringsIndex snapshot '@'
    if datasetLen ≤ 0 ∨ datasetLen = (snapshot.data.length : Int) - 1 then
      .error ("No dataset name was found in snapshot specifier.\n"
        ++ "Expected <datasetname>@<snapshotname>.")
    else if snapshot.data.head? = some '/' then
      .error "Dataset names must not start with '/'."
    else
      let dataset := String.mk (snapshot.data.take datasetLen.toNat)
      let snapshotIsolated := String.mk (snapshot.data.drop (datasetLen.toNat + 1))
      match splitSnapshotArgs rest with
      | .error e => .error e
      | .ok (datasetList, nameList) => .ok (dataset :: datasetList, snapshotIsolated :: nameList)

/-- Lines 162-164 of snapshot.go: the map `outProps`, written by `WriteKvArrayToMap`
from the flag `option`; the error of the write is dropped. -/
def snapshotProperties (env : Env) (options : FlagSet) : AnyMap :=
  match env.WriteKvArrayToMap []
      (env.ConvertParamsStringToKvArray (mapGet options.allFlags "option")) [] with
  | .ok outProps => outProps
  | .error _ =>
    env.WriteKvArrayToMapFailed []
      (env.ConvertParamsStringToKvArray (mapGet options.allFlags "option")) []

/-- Lines 148-164 of snapshot.go: the payload `outMap` of the create call, for
`datasetList[0] = dataset0` and `nameList[0] = name0`. -/
def snapshotPayload (env : Env) (options : FlagSet) (dataset0 name0 : String) : AnyMap :=
  let outMap0 := mapSet (mapSet [] "dataset" (.str dataset0)) "name" (.str name0)
  let outMap1 := env.MaybeCopyProperty outMap0 options.allFlags "recursive"
  let outMap2 := env.MaybeCopyProperty outMap1 options.usedFlags "suspend_vms"
  let outMap3 := env.MaybeCopyProperty outMap2 options.usedFlags "vmware_sync"
  let outMap4 :=
    if mapGet options.allFlags "exclude" != "" then
      mapSet outMap3 "exclude"
        (.list ((splitChars ',' (mapGet options.allFlags "exclude").data).map
          (fun piece => Value.str (String.mk piece))))
    else outMap3
  mapSet outMap4 "properties" (.map (snapshotProperties env options))

/-- The call of line 174: the best-effort deletion of the snapshots named by `args`. -/
def snapshotCleanupCall (env : Env) (arg0 : String) (args : List String) : Call :=
  Call.MaybeBulkApiCall "zfs.snapshot.delete" 10
    [.str arg0, .map (mapSet [] "recursive" (.bool true))] [("", env.ToAnyArray args)] true

/-- The call of line 178. -/
def snapshotCreateCall (env : Env) (outMap : AnyMap) (datasetList nameList : List String) :
    Call :=
  Call.MaybeBulkApiCall "zfs.snapshot.create" 10 [.map outMap]
    [("dataset", env.ToAnyArray datasetList), ("name", env.ToAnyArray nameList)] false

/-- Lines 177-184 of snapshot.go: the create call, issued after the calls `before`; its
error is the error of the handler. -/
def issueSnapshotCreate (api : Session) (create : Call) (before : List Call) : Run :=
  match api.MaybeBulkApiCall (before ++ [create]) with
  | .error e => ⟨before ++ [create], [], .error (.err e)⟩
  | .ok _ => ⟨before ++ [create], [], .ok ()⟩

/-- The handler `createSnapshot`; `options` is what `GetCobraFlags` returned, whose error
the handler drops.  The results of the deletion of line 174 are dropped too. -/
def createSnapshot (env : Env) (api : Session) (options : FlagSet) (args : List String) : Run :=
  match splitSnapshotArgs args with
  | .error e => ⟨[], [], .error (.err e)⟩
  | .ok (datasetList, nameList) =>
    match args, datasetList, nameList with
    | arg0 :: _, dataset0 :: _, name0 :: _ =>
      let create := snapshotCreateCall env (snapshotPayload env options dataset0 name0)
        datasetList nameList
      if env.IsStringTrue options.allFlags "delete" then
        issueSnapshotCreate api create [snapshotCleanupCall env arg0 args]
      else
        issueSnapshotCreate api create []
    | _, _, _ => ⟨[], [], .error .panic⟩

/-- The loop of `deleteOrRollbackSnapshot` (lines 194-199), from argument `snapshots` on:
the error of the first argument whose '@' is missing or in front. -/
def checkSnapshotArgs : List String → Except String Unit
  | [] => .ok ()
  | snapshot :: rest =>
    if stringsIndex snapshot '@' ≤ 0 then
      .error ("No dataset name was found in snapshot specifier.\n"
        ++ "Expected <datasetname>@<snapshotname>.")
    else checkSnapshotArgs rest

/-- The call of line 207, for `snapshots[0] = snapshot0`. -/
def snapshotBulkCall (env : Env) (cmdType : String) (options : FlagSet) (snapshot0 : String)
    (snapshots : List String) : Call :=
  Call.MaybeBulkApiCall ("zfs.snapshot." ++ cmdType) 10
    (env.BuildNameStrAndPropertiesJson options snapshot0) [("", env.ToAnyArray snapshots)] false

/-- The handler `deleteOrRollbackSnapshot` of the commands `snapshot delete` and
`snapshot rollback`; `use` is the field `Use` of the command and `options` what
`GetCobraFlags` returned, whose error the handler drops. -/
def deleteOrRollbackSnapshot (env : Env) (api : Session) (use : String) (options : FlagSet)
    (args : List String) : Run :=
  let cmdType := cmdTypeOf use
  if cmdType != "delete" && cmdType != "rollback" then
    ⟨[], [], .error (.err "cmdType was not delete or rollback")⟩
  else
    match checkSnapshotArgs args with
    | .error e => ⟨[], [], .error (.err e)⟩
    | .ok _ =>
      match args with
      | [] => ⟨[], [], .error .panic⟩
      | snapshot0 :: _ =>
        match api.MaybeBulkApiCall [snapshotBulkCall env cmdType options snapshot0 args] with
        | .error e =>
          ⟨[snapshotBulkCall env cmdType options snapshot0 args], [], .error (.err e)⟩
        | .ok _ => ⟨[snapshotBulkCall env cmdType options snapshot0 args], [], .ok ()⟩

/-- The call of line 239. -/
def renameCall (env : Env) (source dest : String) : Call :=
  Call.ApiCall "zfs.snapshot.rename" env.defaultCallTimeout [.str source, .str dest]

/-- Lines 236-245 of snapshot.go: the rename call and the result of the handler. -/
def issueRename (env : Env) (api : Session) (source dest : String) : Run :=
  match api.ApiCall [renameCall env source dest] with
  | .error e => ⟨[renameCall env source dest], [], .error (.err e)⟩
  | .ok _ => ⟨[renameCall env source dest], [], .ok ()⟩

/-- The handler `renameSnapshot`.  The slice `source[0:strings.Index(source, "@")]` is
out of range when `source` has no '@'. -/
def renameSnapshot (env : Env) (api : Session) (args : List String) : Run :=
  match args with
  | arg0 :: arg1 :: _ =>
    let srcType := (env.IdentifyObject arg0).1
    let source := (env.IdentifyObject arg0).2
    let dstType := (env.IdentifyObject arg1).1
    let dest := (env.IdentifyObject arg1).2
    if srcType != "snapshot" then
      ⟨[], [], .error (.err ("\"" ++ source ++ "\" is not a snapshot"))⟩
    else if stringsIndex source '@' < 0 then
      ⟨[], [], .error .panic⟩
    else
      let dsName := String.mk (source.data.take (stringsIndex source '@').toNat)
      if dstType != "snapshot" then
        issueRename env api source (dsName ++ "@" ++ dest)
      else if !stringsHasPrefix dest (dsName ++ "@") then
        ⟨[], [], .error (.err
          ("The destination snapshot does not share the same dataset as the source.\n"
            ++ "Try leaving out the dataset name in the destination."))⟩
      else
        issueRename env api source dest
  | _ => ⟨[], [], .error .panic⟩

/-! ## A sample environment

Closed instances of the theorems are evaluated in `sampleEnv`, a simple stand-in
for the functions outside the two source files, and against `sampleSession`, a
remote service on which a fixed list of objects exists and every call succeeds. -/

/-- A decimal numeral, with an optional leading '-', read as an integer. -/
def sampleParseSize (s : String) : Except String Int :=
  let digits := fun (cs : List Char) =>
    cs.foldl (fun n c => 10 * n + ((c.toNat - 48 : Nat) : Int)) 0
  match s.data with
  | [] => .error "empty size"
  | '-' :: cs => if cs.all Char.isDigit then .ok (- digits cs) else .error "not a size"
  | cs => if cs.all Char.isDigit then .ok (digits cs) else .error "not a size"

/-- A classifier along the lines of the specification: a leading '/' is a share, a
leading '@' a bare snapshot name, another '@' a snapshot, a '/' a dataset, and anything
else a pool. -/
def sampleIdentifyObject (s : String) : String × String :=
  match s.data with
  | '/' :: _ => ("share", s)
  | '@' :: rest => ("snapshot_only", String.mk rest)
  | cs =>
    if '@' ∈ cs then ("snapshot", s)
    else if '/' ∈ cs then ("dataset", s)
    else ("pool", s)

/-- The sample environment. -/
def sampleEnv : Env where
  IdentifyObject := sampleIdentifyObject
  IsStringTrue := fun m k => m.lookup k == some "true"
  ParseSizeString := sampleParseSize
  ToAnyArray := fun l => l.map Value.str
  StringRepeated := fun s n => List.replicate n s
  BuildTableData := fun _ label _ _ => (label, none)
  RemoveFlag := fun options k =>
    ⟨options.allFlags.filter (fun e => e.1 != k), options.usedFlags.filter (fun e => e.1 != k)⟩
  ConvertParamsStringToKvArray := fun _ => []
  WriteKvArrayToMap := fun m _ _ => .ok m
  ParseStringAndValidate := fun _ v _ => .ok (.str v)
  BuildValueOrder := fun raw => if raw then ["rawvalue"] else ["parsed"]
  BuildNameStrAndPropertiesJson := fun options arg0 =>
    [.str arg0, .map (options.usedFlags.map (fun e => (e.1, Value.str e.2)))]
  GetTableFormat := fun _ => .ok "table"
  EnumerateOutputProperties := fun m =>
    match m.lookup "output" with
    | some s => (splitChars ',' s.data).map String.mk
    | none => []
  GetListFromQueryResponse := fun response => response.resultsMap.map (fun e => e.2)
  LowerCaseValuesFromEnums := fun records _ => records
  GetUsedPropertyColumns := fun _ required => required
  g_datasetCreateUpdateEnums := []
  MaybeCopyProperty := fun m flags k =>
    match flags.lookup k with
    | some v => mapSet m k (.bool (v == "true"))
    | none => m
  WriteKvArrayToMapFailed := fun m _ _ => m
  defaultCallTimeout := 10

/-- A remote service on which exactly the objects `existing` are found by every query
and every call succeeds. -/
def sampleSession (existing : List String) : Session where
  QueryApi := fun _ => .ok ⟨existing.map (fun k => (k, []))⟩
  MaybeBulkApiCall := fun _ => .ok ""
  ApiCall := fun _ => .ok ""

/-- The flags of an invocation of `dataset delete` with `-r`. -/
def sampleDeleteFlags : FlagSet where
  allFlags := [("recursive", "true"), ("force", "false"), ("no_smart_timeout", "false")]
  usedFlags := [("recursive", "true")]

/-- The flags of an invocation of `dataset update` with `--create`. -/
def sampleUpdateCreateFlags : FlagSet where
  allFlags := [("create", "true"), ("allow_shrinking", "false")]
  usedFlags := [("create", "true")]

/-- The flags of an invocation of `dataset update` without `--create`. -/
def sampleUpdateFlags : FlagSet where
  allFlags := [("create", "false"), ("allow_shrinking", "false")]
  usedFlags := []

/-- The flags of an invocation of `dataset create` with `--special-small-block-size=-1`,
under their canonical keys. -/
def sampleBlockSizeFlags : FlagSet where
  allFlags := [("special_small_block_size", "-1"), ("allow_shrinking", "false")]
  usedFlags := [("special_small_block_size", "-1")]

/-- The flags of an invocation of `dataset list -o name,custom:tag`, without `-r` and
without `-u`. -/
def sampleListFlags : FlagSet where
  allFlags := [("recursive", "false"), ("user_properties", "false"), ("parsable", "false"),
    ("all", "false"), ("format", "table"), ("output", "name,custom:tag")]
  usedFlags := [("output", "name,custom:tag")]

/-- The flags of an invocation of `snapshot list -u`. -/
def sampleSnapshotListFlags : FlagSet where
  allFlags := [("recursive", "false"), ("user_properties", "true"), ("parsable", "false"),
    ("all", "false"), ("format", "table"), ("output", "")]
  usedFlags := [("user_properties", "true")]

/-- The flags of an invocation of `snapshot delete` without options. -/
def sampleSnapshotDeleteFlags : FlagSet where
  allFlags := [("recursive", "false"), ("defer", "false")]
  usedFlags := []

/-- The flags of an invocation of `snapshot create -d`. -/
def sampleSnapshotCreateFlags : FlagSet where
  allFlags := [("delete", "true"), ("recursive", "false"), ("exclude", ""), ("option", "")]
  usedFlags := [("delete", "true")]

/-- A remote service on which the deletion of a snapshot fails, there being no such
snapshot, and every other call succeeds. -/
def sampleSessionNoSnapshot : Session where
  QueryApi := fun _ => .ok ⟨[]⟩
  MaybeBulkApiCall := fun calls =>
    match calls.getLast? with
    | some (Call.MaybeBulkApiCall "zfs.snapshot.delete" _ _ _ _) => .error "snapshot not found"
    | _ => .ok ""
  ApiCall := fun _ => .ok ""

/-- The flags of an invocation of `dataset create` without options: `volsize` has its
default "0" in `allFlags` and is not in `usedFlags`. -/
def sampleCreateFlags : FlagSet where
  allFlags := [("volsize", "0"), ("allow_shrinking", "false")]
  usedFlags := []

/-- The flags of an invocation of `dataset create -V 1024`. -/
def sampleVolumeFlags : FlagSet where
  allFlags := [("volsize", "1024"), ("allow_shrinking", "false")]
  usedFlags := [("volsize", "1024")]

/-! ## Theorems -/

/-! ### `deleteDataset` -/

theorem wrapInt64_of_fits (x : Int) (h0 : 0 ≤ x) (h1 : x < 2 ^ 63) : wrapInt64 x = x := by
  unfold wrapInt64
  rw [Int.emod_eq_of_lt (by omega) (by omega)]
  omega

theorem smartTimeout_of_fits (n : Nat) (h : 10 + 10 * (n : Int) < 2 ^ 63) :
    smartTimeout n = 10 + 10 * (n : Int) := by
  unfold smartTimeout
  exact wrapInt64_of_fits _ (by omega) h

theorem deleteDatasetCall_calls (env : Env) (api : Session) (options : FlagSet)
    (arg0 : String) (rest : List String) (before : List Call) (timeout : Int) :
    (deleteDatasetCall env api options (arg0 :: rest) before timeout).calls
      = before ++ [deleteCall env options arg0 (arg0 :: rest) timeout] := by
  cases h : api.MaybeBulkApiCall (before ++ [deleteCall env options arg0 (arg0 :: rest) timeout])
    <;> simp [deleteDatasetCall, h]

theorem deleteDataset_smart_calls (env : Env) (api : Session) (options : FlagSet)
    (arg0 : String) (rest : List String) (response : QueryResponse)
    (hsmart : env.IsStringTrue options.allFlags "no_smart_timeout" = false)
    (hrec : env.IsStringTrue options.allFlags "recursive" = true)
    (hquery : api.QueryApi [deleteDatasetListing env (arg0 :: rest)] = .ok response) :
    (deleteDataset env api options (arg0 :: rest)).calls
      = [deleteDatasetListing env (arg0 :: rest),
         deleteCall env options arg0 (arg0 :: rest)
           (smartTimeout response.resultsMap.length)] := by
  simp [deleteDataset, hsmart, hrec, hquery, deleteDatasetCall_calls]

theorem smartTimeout_le (m n : Nat) (hmn : m ≤ n)
    (hfit : 10 + 10 * (n : Int) < 2 ^ 63) : smartTimeout m ≤ smartTimeout n := by
  rw [smartTimeout_of_fits n hfit, smartTimeout_of_fits m (by omega)]
  omega

/-- C1: for a non-empty argument list `arg0 :: rest`, `deleteDataset` issues (i) with
no-smart-timeout set, one `pool.dataset.delete` call with timeout 20 and nothing else,
whatever the recursive flag; (ii) otherwise with recursive set, when the recursive
`pool.dataset` listing of the arguments (`shouldRecurse = true`) answers with a
`resultsMap` of `n` entries, that listing and then one `pool.dataset.delete` call with
timeout `int64(10 + 10*n)`, which is `10 + 10 * n` for every `n` whose timeout fits the
machine integer; (iii) otherwise one `pool.dataset.delete` call with timeout 20 and
nothing else. -/
theorem deleteDataset_timeout (env : Env) (api : Session) (options : FlagSet)
    (arg0 : String) (rest : List String) :
    (env.IsStringTrue options.allFlags "no_smart_timeout" = true →
      (deleteDataset env api options (arg0 :: rest)).calls
        = [Call.MaybeBulkApiCall "pool.dataset.delete" 20
            (env.BuildNameStrAndPropertiesJson (env.RemoveFlag options "no_smart_timeout") arg0)
            [("", env.ToAnyArray (arg0 :: rest))] false])
    ∧ (env.IsStringTrue options.allFlags "no_smart_timeout" = false →
        env.IsStringTrue options.allFlags "recursive" = true →
        ∀ response,
          api.QueryApi
            [Call.QueryApi "pool.dataset" (arg0 :: rest)
              (env.StringRepeated "name" (arg0 :: rest).length) []
              { valueOrder := env.BuildValueOrder true
                shouldGetAllProps := false
                shouldGetUserProps := false
                shouldRecurse := true }] = .ok response →
          (deleteDataset env api options (arg0 :: rest)).calls
              = [Call.QueryApi "pool.dataset" (arg0 :: rest)
                  (env.StringRepeated "name" (arg0 :: rest).length) []
                  { valueOrder := env.BuildValueOrder true
                    shouldGetAllProps := false
                    shouldGetUserProps := false
                    shouldRecurse := true },
                 Call.MaybeBulkApiCall "pool.dataset.delete"
                  (smartTimeout response.resultsMap.length)
                  (env.BuildNameStrAndPropertiesJson options arg0)
                  [("", env.ToAnyArray (arg0 :: rest))] false]
            ∧ (10 + 10 * (response.resultsMap.length : Int) < 2 ^ 63 →
                smartTimeout response.resultsMap.length
                  = 10 + 10 * (response.resultsMap.length : Int)))
    ∧ (env.IsStringTrue options.allFlags "no_smart_timeout" = false →
        env.IsStringTrue options.allFlags "recursive" = false →
        (deleteDataset env api options (arg0 :: rest)).calls
          = [Call.MaybeBulkApiCall "pool.dataset.delete" 20
              (env.BuildNameStrAndPropertiesJson options arg0)
              [("", env.ToAnyArray (arg0 :: rest))] false]) := by
  refine ⟨fun h => ?_, fun h1 h2 response hq => ⟨?_, smartTimeout_of_fits _⟩, fun h1 h2 => ?_⟩
  · simp [deleteDataset, h, deleteDatasetCall_calls, deleteCall]
  · exact deleteDataset_smart_calls env api options arg0 rest response h1 h2 hq
  · simp [deleteDataset, h1, h2, deleteDatasetCall_calls, deleteCall]

/-- C1, the scenario of the specification: `delete pool/a@s1 -r` on a service whose
recursive listing has 4 entries issues the recursive listing and then one
`pool.dataset.delete` call with timeout 50. -/
theorem deleteDataset_timeout_witness :
    (deleteDataset sampleEnv (sampleSession ["pool/a", "pool/a/b", "pool/a/c", "pool/a/d"])
        sampleDeleteFlags ["pool/a@s1"]).calls
      = [Call.QueryApi "pool.dataset" ["pool/a@s1"] ["name"] []
          { valueOrder := ["rawvalue"]
            shouldGetAllProps := false
            shouldGetUserProps := false
            shouldRecurse := true },
         Call.MaybeBulkApiCall "pool.dataset.delete" 50
          [.str "pool/a@s1", .map [("recursive", .str "true")]]
          [("", [.str "pool/a@s1"])] false] :=
  ((deleteDataset_timeout sampleEnv
      (sampleSession ["pool/a", "pool/a/b", "pool/a/c", "pool/a/d"])
      sampleDeleteFlags "pool/a@s1" []).2.1 (by decide) (by decide) _ rfl).1

/-- C2: with smart timeout enabled (recursive set, no-smart-timeout unset), the timeout
that `deleteDataset` passes to the delete call does not decrease when the number of
affected objects grows: of two runs whose recursive listings have `m ≤ n` entries, the
first passes a timeout `t1` and the second a timeout `t2` with `t1 ≤ t2`.  The count `n`
is the length of a Go map, so `10 + 10 * n` fits the 64-bit integer it is computed in. -/
theorem deleteDataset_timeout_monotone (env : Env) (api1 api2 : Session) (options : FlagSet)
    (arg0 : String) (rest : List String) (response1 response2 : QueryResponse)
    (hsmart : env.IsStringTrue options.allFlags "no_smart_timeout" = false)
    (hrec : env.IsStringTrue options.allFlags "recursive" = true)
    (hquery1 : api1.QueryApi
        [(Call.QueryApi "pool.dataset" (arg0 :: rest)
              (env.StringRepeated "name" (arg0 :: rest).length) []
              { valueOrder := env.BuildValueOrder true
                shouldGetAllProps := false
                shouldGetUserProps := false
                shouldRecurse := true })] = .ok response1)
    (hquery2 : api2.QueryApi
        [(Call.QueryApi "pool.dataset" (arg0 :: rest)
              (env.StringRepeated "name" (arg0 :: rest).length) []
              { valueOrder := env.BuildValueOrder true
                shouldGetAllProps := false
                shouldGetUserProps := false
                shouldRecurse := true })] = .ok response2)
    (hle : response1.resultsMap.length ≤ response2.resultsMap.length)
    (hfit : 10 + 10 * (response2.resultsMap.length : Int) < 2 ^ 63) :
    ∃ t1 t2 : Int,
      (deleteDataset env api1 options (arg0 :: rest)).calls
          = [(Call.QueryApi "pool.dataset" (arg0 :: rest)
              (env.StringRepeated "name" (arg0 :: rest).length) []
              { valueOrder := env.BuildValueOrder true
                shouldGetAllProps := false
                shouldGetUserProps := false
                shouldRecurse := true }),
             (Call.MaybeBulkApiCall "pool.dataset.delete" t1
              (env.BuildNameStrAndPropertiesJson options arg0)
              [("", env.ToAnyArray (arg0 :: rest))] false)]
        ∧ (deleteDataset env api2 options (arg0 :: rest)).calls
          = [(Call.QueryApi "pool.dataset" (arg0 :: rest)
              (env.StringRepeated "name" (arg0 :: rest).length) []
              { valueOrder := env.BuildValueOrder true
                shouldGetAllProps := false
                shouldGetUserProps := false
                shouldRecurse := true }),
             (Call.MaybeBulkApiCall "pool.dataset.delete" t2
              (env.BuildNameStrAndPropertiesJson options arg0)
              [("", env.ToAnyArray (arg0 :: rest))] false)]
        ∧ t1 ≤ t2 :=
  ⟨smartTimeout response1.resultsMap.length, smartTimeout response2.resultsMap.length,
    deleteDataset_smart_calls env api1 options arg0 rest response1 hsmart hrec hquery1,
    deleteDataset_smart_calls env api2 options arg0 rest response2 hsmart hrec hquery2,
    smartTimeout_le _ _ hle hfit⟩

/-- C2 at listings of 4 and of 5 entries: the two delete calls carry timeouts in that
order (50 and 60). -/
theorem deleteDataset_timeout_monotone_witness :
    ∃ t1 t2 : Int,
      (deleteDataset sampleEnv (sampleSession ["pool/a", "pool/a/b", "pool/a/c", "pool/a/d"])
          sampleDeleteFlags ["pool/a"]).calls
          = [Call.QueryApi "pool.dataset" ["pool/a"] ["name"] []
              { valueOrder := ["rawvalue"]
                shouldGetAllProps := false
                shouldGetUserProps := false
                shouldRecurse := true },
             Call.MaybeBulkApiCall "pool.dataset.delete" t1
              [.str "pool/a", .map [("recursive", .str "true")]]
              [("", [.str "pool/a"])] false]
        ∧ (deleteDataset sampleEnv
            (sampleSession ["pool/a", "pool/a/b", "pool/a/c", "pool/a/d", "pool/a/e"])
            sampleDeleteFlags ["pool/a"]).calls
          = [Call.QueryApi "pool.dataset" ["pool/a"] ["name"] []
              { valueOrder := ["rawvalue"]
                shouldGetAllProps := false
                shouldGetUserProps := false
                shouldRecurse := true },
             Call.MaybeBulkApiCall "pool.dataset.delete" t2
              [.str "pool/a", .map [("recursive", .str "true")]]
              [("", [.str "pool/a"])] false]
        ∧ t1 ≤ t2 :=
  deleteDataset_timeout_monotone sampleEnv
    (sampleSession ["pool/a", "pool/a/b", "pool/a/c", "pool/a/d"])
    (sampleSession ["pool/a", "pool/a/b", "pool/a/c", "pool/a/d", "pool/a/e"])
    sampleDeleteFlags "pool/a" [] _ _ (by decide) (by decide) rfl rfl (by decide) (by decide)

/-! ### The type lists of the list handlers -/

theorem getDatasetListTypesLoop_ok (env : Env) (args : List String)
    (h : ∀ a ∈ args, (env.IdentifyObject a).1 = "dataset" ∨ (env.IdentifyObject a).1 = "pool") :
    getDatasetListTypesLoop env args
      = .ok (args.map (fun a => if (env.IdentifyObject a).1 = "dataset" then "name" else "pool"),
             args.map (fun a => (env.IdentifyObject a).2)) := by
  induction args with
  | nil => rfl
  | cons a rest ih =>
    have hrest := ih (fun x hx => h x (List.mem_cons_of_mem a hx))
    rcases h a (List.mem_cons_self a rest) with ha | ha
    · simp [getDatasetListTypesLoop, ha, hrest]
    · simp [getDatasetListTypesLoop, ha, hrest]

theorem getDatasetListTypesLoop_error (env : Env) (pre : List String) (a : String)
    (post : List String)
    (hpre : ∀ x ∈ pre, (env.IdentifyObject x).1 = "dataset" ∨ (env.IdentifyObject x).1 = "pool")
    (ha : ¬ ((env.IdentifyObject a).1 = "dataset" ∨ (env.IdentifyObject a).1 = "pool")) :
    getDatasetListTypesLoop env (pre ++ a :: post)
      = .error (if (env.IdentifyObject a).1 = "id" ∨ (env.IdentifyObject a).1 = "share" then
          "querying datasets based on mount point is not yet supported"
        else if (env.IdentifyObject a).1 = "snapshot"
            ∨ (env.IdentifyObject a).1 = "snapshot_only" then
          "querying datasets based on shapshot is not yet supported"
        else "Unrecognised namespec \"" ++ a ++ "\"") := by
  induction pre with
  | nil =>
    simp only [not_or] at ha
    simp only [List.nil_append, getDatasetListTypesLoop]
    split_ifs <;> simp_all
  | cons x rest ih =>
    have hrest := ih (fun y hy => hpre y (List.mem_cons_of_mem x hy))
    rcases hpre x (List.mem_cons_self x rest) with hx | hx
    · simp [getDatasetListTypesLoop, hx, hrest]
    · simp [getDatasetListTypesLoop, hx, hrest]

theorem getDatasetListTypesLoop_ok_kinds (env : Env) (args : List String)
    (r : List String × List String) (h : getDatasetListTypesLoop env args = .ok r) :
    ∀ a ∈ args, (env.IdentifyObject a).1 = "dataset" ∨ (env.IdentifyObject a).1 = "pool" := by
  induction args generalizing r with
  | nil => simp
  | cons a rest ih =>
    simp only [getDatasetListTypesLoop] at h
    split_ifs at h with h1 h2 h3 h4
    · cases hr : getDatasetListTypesLoop env rest with
      | error e => simp [hr] at h
      | ok r2 =>
        intro x hx
        rcases List.mem_cons.1 hx with rfl | hx
        · exact Or.inl h3
        · exact ih r2 hr x hx
    · cases hr : getDatasetListTypesLoop env rest with
      | error e => simp [hr] at h
      | ok r2 =>
        intro x hx
        rcases List.mem_cons.1 hx with rfl | hx
        · exact Or.inr (not_not.1 h4)
        · exact ih r2 hr x hx

/-- The contract of `getDatasetListTypes`, messages as the code spells them: it returns an
empty type list for no arguments; it succeeds exactly when every argument classifies as
dataset or pool, and then the i-th tag is "name" for a dataset and "pool" for a pool and
the i-th argument is replaced by its normalized spec; otherwise the error is that of the
first refused argument: the mount-point message for an id or a share, the message
"querying datasets based on shapshot is not yet supported" for a snapshot or a bare
snapshot name, and "Unrecognised namespec" for any other kind. -/
theorem getDatasetListTypes_spec (env : Env) (args : List String) :
    getDatasetListTypes env [] = .ok ([], [])
    ∧ ((∃ r, getDatasetListTypes env args = .ok r) ↔
        ∀ a ∈ args, (env.IdentifyObject a).1 = "dataset" ∨ (env.IdentifyObject a).1 = "pool")
    ∧ (∀ typeList args2, getDatasetListTypes env args = .ok (typeList, args2) →
        typeList = args.map
            (fun a => if (env.IdentifyObject a).1 = "dataset" then "name" else "pool")
          ∧ args2 = args.map (fun a => (env.IdentifyObject a).2)
          ∧ typeList.length = args.length)
    ∧ (∀ pre a post, args = pre ++ a :: post →
        (∀ x ∈ pre, (env.IdentifyObject x).1 = "dataset" ∨ (env.IdentifyObject x).1 = "pool") →
        ¬ ((env.IdentifyObject a).1 = "dataset" ∨ (env.IdentifyObject a).1 = "pool") →
        getDatasetListTypes env args
          = .error (if (env.IdentifyObject a).1 = "id" ∨ (env.IdentifyObject a).1 = "share" then
              "querying datasets based on mount point is not yet supported"
            else if (env.IdentifyObject a).1 = "snapshot"
                ∨ (env.IdentifyObject a).1 = "snapshot_only" then
              "querying datasets based on shapshot is not yet supported"
            else "Unrecognised namespec \"" ++ a ++ "\"")) := by
  have hloop : getDatasetListTypes env args = getDatasetListTypesLoop env args := by
    cases args <;> simp [getDatasetListTypes, getDatasetListTypesLoop]
  refine ⟨rfl, ⟨fun ⟨r, hr⟩ => ?_, fun h => ?_⟩, fun typeList args2 hr => ?_,
    fun pre a post hargs hpre ha => ?_⟩
  · exact getDatasetListTypesLoop_ok_kinds env args r (hloop ▸ hr)
  · exact ⟨_, hloop.trans (getDatasetListTypesLoop_ok env args h)⟩
  · have hk := getDatasetListTypesLoop_ok_kinds env args _ (hloop ▸ hr)
    have := (hloop.trans (getDatasetListTypesLoop_ok env args hk)).symm.trans hr
    simp only [Except.ok.injEq, Prod.mk.injEq] at this
    refine ⟨this.1.symm, this.2.symm, ?_⟩
    rw [← this.1, List.length_map]
  · rw [hloop, hargs]
    exact getDatasetListTypesLoop_error env pre a post hpre ha

/-- C7, the message for a snapshot: an argument that classifies as a snapshot or as a
bare snapshot name makes `getDatasetListTypes` fail with a message that spells the word
"shapshot", which is not the message "querying datasets based on snapshot is not yet
supported". -/
theorem getDatasetListTypes_snapshot_message (env : Env) (arg : String) (rest : List String)
    (h : (env.IdentifyObject arg).1 = "snapshot"
      ∨ (env.IdentifyObject arg).1 = "snapshot_only") :
    getDatasetListTypes env (arg :: rest)
        = .error "querying datasets based on shapshot is not yet supported"
      ∧ getDatasetListTypes env (arg :: rest)
        ≠ .error "querying datasets based on snapshot is not yet supported" := by
  have : getDatasetListTypes env (arg :: rest)
      = .error "querying datasets based on shapshot is not yet supported" := by
    rcases h with h | h <;> simp [getDatasetListTypes, getDatasetListTypesLoop, h]
  rw [this]
  exact ⟨rfl, by simp⟩

/-- C7 at the argument list of `dataset list pool/a@s1`. -/
theorem getDatasetListTypes_snapshot_message_witness :
    getDatasetListTypes sampleEnv ["pool/a@s1"]
        = .error "querying datasets based on shapshot is not yet supported"
      ∧ getDatasetListTypes sampleEnv ["pool/a@s1"]
        ≠ .error "querying datasets based on snapshot is not yet supported" :=
  getDatasetListTypes_snapshot_message sampleEnv "pool/a@s1" [] (Or.inl (by decide))

theorem getSnapshotListTypesLoop_ok (env : Env) (args : List String)
    (h : ∀ a ∈ args, (env.IdentifyObject a).1 = "dataset" ∨ (env.IdentifyObject a).1 = "pool"
      ∨ (env.IdentifyObject a).1 = "snapshot" ∨ (env.IdentifyObject a).1 = "snapshot_only") :
    getSnapshotListTypesLoop env args
      = .ok (args.map (fun a =>
              if (env.IdentifyObject a).1 = "snapshot_only" then "snapshot_name"
              else if (env.IdentifyObject a).1 = "snapshot" then "name"
              else if (env.IdentifyObject a).1 = "dataset" then "dataset"
              else "pool"),
             args.map (fun a => (env.IdentifyObject a).2)) := by
  induction args with
  | nil => rfl
  | cons a rest ih =>
    have hrest := ih (fun x hx => h x (List.mem_cons_of_mem a hx))
    rcases h a (List.mem_cons_self a rest) with ha | ha | ha | ha <;>
      simp [getSnapshotListTypesLoop, ha, hrest]

theorem getSnapshotListTypesLoop_error (env : Env) (pre : List String) (a : String)
    (post : List String)
    (hpre : ∀ x ∈ pre, (env.IdentifyObject x).1 = "dataset" ∨ (env.IdentifyObject x).1 = "pool"
      ∨ (env.IdentifyObject x).1 = "snapshot" ∨ (env.IdentifyObject x).1 = "snapshot_only")
    (ha : ¬ ((env.IdentifyObject a).1 = "dataset" ∨ (env.IdentifyObject a).1 = "pool"
      ∨ (env.IdentifyObject a).1 = "snapshot" ∨ (env.IdentifyObject a).1 = "snapshot_only")) :
    getSnapshotListTypesLoop env (pre ++ a :: post)
      = .error (if (env.IdentifyObject a).1 = "id" ∨ (env.IdentifyObject a).1 = "share" then
          "querying snapshots based on mount point is not yet supported"
        else "Unrecognised namespec \"" ++ a ++ "\"") := by
  induction pre with
  | nil =>
    simp only [not_or] at ha
    simp only [List.nil_append, getSnapshotListTypesLoop]
    split_ifs <;> simp_all
  | cons x rest ih =>
    have hrest := ih (fun y hy => hpre y (List.mem_cons_of_mem x hy))
    rcases hpre x (List.mem_cons_self x rest) with hx | hx | hx | hx <;>
      simp [getSnapshotListTypesLoop, hx, hrest]

theorem getSnapshotListTypesLoop_ok_kinds (env : Env) (args : List String)
    (r : List String × List String) (h : getSnapshotListTypesLoop env args = .ok r) :
    ∀ a ∈ args, (env.IdentifyObject a).1 = "dataset" ∨ (env.IdentifyObject a).1 = "pool"
      ∨ (env.IdentifyObject a).1 = "snapshot" ∨ (env.IdentifyObject a).1 = "snapshot_only" := by
  induction args generalizing r with
  | nil => simp
  | cons a rest ih =>
    have key : (env.IdentifyObject a).1 = "dataset" ∨ (env.IdentifyObject a).1 = "pool"
        ∨ (env.IdentifyObject a).1 = "snapshot" ∨ (env.IdentifyObject a).1 = "snapshot_only" := by
      simp only [getSnapshotListTypesLoop] at h
      split_ifs at h with h1 h2 h3 h4
      · exact Or.inr (Or.inr (Or.inl h2))
      · exact Or.inr (Or.inr (Or.inr h3))
      · by_cases hd : (env.IdentifyObject a).1 = "dataset"
        · exact Or.inl hd
        · by_cases hp : (env.IdentifyObject a).1 = "pool"
          · exact Or.inr (Or.inl hp)
          · exact absurd ⟨hd, hp⟩ h4
    have hrest : ∃ r2, getSnapshotListTypesLoop env rest = .ok r2 := by
      cases hr : getSnapshotListTypesLoop env rest with
      | ok r2 => exact ⟨r2, rfl⟩
      | error e =>
        simp only [getSnapshotListTypesLoop, hr] at h
        split_ifs at h
    obtain ⟨r2, hr2⟩ := hrest
    intro x hx
    rcases List.mem_cons.1 hx with rfl | hx
    · exact key
    · exact ih r2 hr2 x hx

/-- C8: `getSnapshotListTypes` succeeds exactly when every argument classifies as
dataset, pool, snapshot or bare snapshot name, and then the i-th tag is "snapshot_name"
for a bare snapshot name, "name" for a snapshot, "dataset" for a dataset and "pool" for a
pool, the i-th argument is replaced by its normalized spec and the type list is as long
as the argument list; otherwise the error is that of the first refused argument: the
mount-point message for an id or a share and "Unrecognised namespec" for any other
kind. -/
theorem getSnapshotListTypes_spec (env : Env) (args : List String) :
    ((∃ r, getSnapshotListTypes env args = .ok r) ↔
        ∀ a ∈ args, (env.IdentifyObject a).1 = "dataset" ∨ (env.IdentifyObject a).1 = "pool"
          ∨ (env.IdentifyObject a).1 = "snapshot"
          ∨ (env.IdentifyObject a).1 = "snapshot_only")
    ∧ (∀ typeList args2, getSnapshotListTypes env args = .ok (typeList, args2) →
        typeList = args.map (fun a =>
            if (env.IdentifyObject a).1 = "snapshot_only" then "snapshot_name"
            else if (env.IdentifyObject a).1 = "snapshot" then "name"
            else if (env.IdentifyObject a).1 = "dataset" then "dataset"
            else "pool")
          ∧ args2 = args.map (fun a => (env.IdentifyObject a).2)
          ∧ typeList.length = args.length)
    ∧ (∀ pre a post, args = pre ++ a :: post →
        (∀ x ∈ pre, (env.IdentifyObject x).1 = "dataset" ∨ (env.IdentifyObject x).1 = "pool"
          ∨ (env.IdentifyObject x).1 = "snapshot"
          ∨ (env.IdentifyObject x).1 = "snapshot_only") →
        ¬ ((env.IdentifyObject a).1 = "dataset" ∨ (env.IdentifyObject a).1 = "pool"
          ∨ (env.IdentifyObject a).1 = "snapshot"
          ∨ (env.IdentifyObject a).1 = "snapshot_only") →
        getSnapshotListTypes env args
          = .error (if (env.IdentifyObject a).1 = "id" ∨ (env.IdentifyObject a).1 = "share" then
              "querying snapshots based on mount point is not yet supported"
            else "Unrecognised namespec \"" ++ a ++ "\"")) := by
  have hloop : getSnapshotListTypes env args = getSnapshotListTypesLoop env args := by
    cases args <;> simp [getSnapshotListTypes, getSnapshotListTypesLoop]
  refine ⟨⟨fun ⟨r, hr⟩ => ?_, fun h => ?_⟩, fun typeList args2 hr => ?_,
    fun pre a post hargs hpre ha => ?_⟩
  · exact getSnapshotListTypesLoop_ok_kinds env args r (hloop ▸ hr)
  · exact ⟨_, hloop.trans (getSnapshotListTypesLoop_ok env args h)⟩
  · have hk := getSnapshotListTypesLoop_ok_kinds env args _ (hloop ▸ hr)
    have := (hloop.trans (getSnapshotListTypesLoop_ok env args hk)).symm.trans hr
    simp only [Except.ok.injEq, Prod.mk.injEq] at this
    refine ⟨this.1.symm, this.2.symm, ?_⟩
    rw [← this.1, List.length_map]
  · rw [hloop, hargs]
    exact getSnapshotListTypesLoop_error env pre a post hpre ha

/-- C8 at `snapshot list pool/a@s1 @daily pool/a tank`: the four legal kinds are
accepted together. -/
theorem getSnapshotListTypes_spec_witness :
    ∃ r, getSnapshotListTypes sampleEnv ["pool/a@s1", "@daily", "pool/a", "tank"] = .ok r :=
  (getSnapshotListTypes_spec sampleEnv ["pool/a@s1", "@daily", "pool/a", "tank"]).1.2
    (by decide)

theorem getDatasetListTypes_args_length (env : Env) (args idTypes args2 : List String)
    (h : getDatasetListTypes env args = .ok (idTypes, args2)) :
    args2.length = args.length := by
  have hloop : getDatasetListTypes env args = getDatasetListTypesLoop env args := by
    cases args <;> simp [getDatasetListTypes, getDatasetListTypesLoop]
  have hk := getDatasetListTypesLoop_ok_kinds env args _ (hloop ▸ h)
  have := (hloop.trans (getDatasetListTypesLoop_ok env args hk)).symm.trans h
  simp only [Except.ok.injEq, Prod.mk.injEq] at this
  rw [← this.2, List.length_map]

theorem getSnapshotListTypes_args_length (env : Env) (args idTypes args2 : List String)
    (h : getSnapshotListTypes env args = .ok (idTypes, args2)) :
    args2.length = args.length := by
  have hloop : getSnapshotListTypes env args = getSnapshotListTypesLoop env args := by
    cases args <;> simp [getSnapshotListTypes, getSnapshotListTypesLoop]
  have hk := getSnapshotListTypesLoop_ok_kinds env args _ (hloop ▸ h)
  have := (hloop.trans (getSnapshotListTypesLoop_ok env args hk)).symm.trans h
  simp only [Except.ok.injEq, Prod.mk.injEq] at this
  rw [← this.2, List.length_map]

/-! ### The query parameters of the list handlers -/

theorem stringsIndex_nonneg_iff (s : String) (c : Char) :
    stringsIndex s c ≥ 0 ↔ c ∈ s.data := by
  unfold stringsIndex
  split_ifs with h
  · simp [h]
  · simp [h]

theorem forceUserProps_shouldRecurse (extras : typeQueryParams) (properties : List String) :
    (forceUserProps extras properties).shouldRecurse = extras.shouldRecurse := by
  induction properties with
  | nil => rfl
  | cons prop rest ih =>
    simp only [forceUserProps]
    split_ifs
    · rfl
    · exact ih

theorem forceUserProps_shouldGetUserProps (extras : typeQueryParams)
    (properties : List String) :
    (forceUserProps extras properties).shouldGetUserProps
      = (extras.shouldGetUserProps || properties.any (fun prop => decide (':' ∈ prop.data))) := by
  induction properties with
  | nil => simp [forceUserProps]
  | cons prop rest ih =>
    simp only [forceUserProps, List.any_cons]
    split_ifs with h
    · simp [(stringsIndex_nonneg_iff prop ':').1 h]
    · have hn : ¬ ':' ∈ prop.data := fun hm => h ((stringsIndex_nonneg_iff prop ':').2 hm)
      simp [ih, hn]

theorem printTable_calls (env : Env) (format label : String) (columnsList : List String)
    (records : List AnyMap) (before : List Call) :
    (printTable env format label columnsList records before).calls = before := by
  unfold printTable
  split <;> rfl

theorem listDataset_calls (env : Env) (api : Session) (options : FlagSet) (args : List String) :
    (listDataset env api (.ok options) args).calls
      = match env.GetTableFormat options.allFlags, getDatasetListTypes env args with
        | .ok _, .ok (idTypes, args2) =>
          [Call.QueryApi "pool.dataset" args2 idTypes
            (env.EnumerateOutputProperties options.allFlags)
            (listDatasetExtras env options args2 (env.EnumerateOutputProperties options.allFlags))]
        | _, _ => [] := by
  cases hf : env.GetTableFormat options.allFlags with
  | error e => simp [listDataset, hf]
  | ok format =>
    cases ht : getDatasetListTypes env args with
    | error e => simp [listDataset, hf, ht]
    | ok r =>
      obtain ⟨idTypes, args2⟩ := r
      simp only [listDataset, hf, ht]
      split
      · rfl
      · exact printTable_calls _ _ _ _ _ _

theorem listSnapshot_calls (env : Env) (api : Session) (options : FlagSet)
    (args : List String) :
    (listSnapshot env api (.ok options) args).calls
      = match env.GetTableFormat options.allFlags, getSnapshotListTypes env args with
        | .ok _, .ok (idTypes, args2) =>
          [Call.QueryApi "zfs.snapshot" args2 idTypes
            (env.EnumerateOutputProperties options.allFlags)
            (listSnapshotExtras env options args2)]
        | _, _ => [] := by
  cases hf : env.GetTableFormat options.allFlags with
  | error e => simp [listSnapshot, hf]
  | ok format =>
    cases ht : getSnapshotListTypes env args with
    | error e => simp [listSnapshot, hf, ht]
    | ok r =>
      obtain ⟨idTypes, args2⟩ := r
      simp only [listSnapshot, hf, ht]
      split
      · rfl
      · exact printTable_calls _ _ _ _ _ _

theorem length_eq_zero_beq (args args2 : List String) (h : args2.length = args.length) :
    (args2.length == 0) = args.isEmpty := by
  cases args <;> cases args2 <;> simp_all

/-- C9: in `listDataset` and in `listSnapshot`, every `QueryApi` call of the run has
`shouldRecurse = (the argument list is empty) || (the recursive flag is true)`, and the
run issues exactly one such call once the table format and the classification of the
arguments have succeeded. -/
theorem list_shouldRecurse (env : Env) (api : Session) (options : FlagSet)
    (args : List String) :
    (∀ object targets types properties extras,
        Call.QueryApi object targets types properties extras
            ∈ (listDataset env api (.ok options) args).calls →
          extras.shouldRecurse
            = (args.isEmpty || env.IsStringTrue options.allFlags "recursive"))
    ∧ (∀ object targets types properties extras,
        Call.QueryApi object targets types properties extras
            ∈ (listSnapshot env api (.ok options) args).calls →
          extras.shouldRecurse
            = (args.isEmpty || env.IsStringTrue options.allFlags "recursive"))
    ∧ (∀ format idTypes args2, env.GetTableFormat options.allFlags = .ok format →
        getDatasetListTypes env args = .ok (idTypes, args2) →
        ∃ extras, (listDataset env api (.ok options) args).calls
          = [Call.QueryApi "pool.dataset" args2 idTypes
              (env.EnumerateOutputProperties options.allFlags) extras])
    ∧ (∀ format idTypes args2, env.GetTableFormat options.allFlags = .ok format →
        getSnapshotListTypes env args = .ok (idTypes, args2) →
        ∃ extras, (listSnapshot env api (.ok options) args).calls
          = [Call.QueryApi "zfs.snapshot" args2 idTypes
              (env.EnumerateOutputProperties options.allFlags) extras]) := by
  refine ⟨?_, ?_, ?_, ?_⟩
  · intro object targets types properties extras hmem
    rw [listDataset_calls] at hmem
    cases hf : env.GetTableFormat options.allFlags with
    | error e => simp [hf] at hmem
    | ok format =>
      cases ht : getDatasetListTypes env args with
      | error e => simp [hf, ht] at hmem
      | ok r =>
        obtain ⟨idTypes, args2⟩ := r
        have hlen := getDatasetListTypes_args_length env args idTypes args2 ht
        simp only [hf, ht, List.mem_singleton, Call.QueryApi.injEq] at hmem
        obtain ⟨-, -, -, -, rfl⟩ := hmem
        simp only [listDatasetExtras, forceUserProps_shouldRecurse,
          length_eq_zero_beq args args2 hlen]
  · intro object targets types properties extras hmem
    rw [listSnapshot_calls] at hmem
    cases hf : env.GetTableFormat options.allFlags with
    | error e => simp [hf] at hmem
    | ok format =>
      cases ht : getSnapshotListTypes env args with
      | error e => simp [hf, ht] at hmem
      | ok r =>
        obtain ⟨idTypes, args2⟩ := r
        have hlen := getSnapshotListTypes_args_length env args idTypes args2 ht
        simp only [hf, ht, List.mem_singleton, Call.QueryApi.injEq] at hmem
        obtain ⟨-, -, -, -, rfl⟩ := hmem
        simp only [listSnapshotExtras, length_eq_zero_beq args args2 hlen]
  · intro format idTypes args2 hf ht
    exact ⟨_, by rw [listDataset_calls, hf, ht]⟩
  · intro format idTypes args2 hf ht
    exact ⟨_, by rw [listSnapshot_calls, hf, ht]⟩

/-- C9 at `dataset list` with no target and without `-r`: the query is recursive. -/
theorem list_shouldRecurse_witness :
    (listDatasetExtras sampleEnv sampleListFlags [] ["name", "custom:tag"]).shouldRecurse
      = true :=
  (list_shouldRecurse sampleEnv (sampleSession []) sampleListFlags []).1
    "pool.dataset" [] [] ["name", "custom:tag"]
    (listDatasetExtras sampleEnv sampleListFlags [] ["name", "custom:tag"])
    (List.mem_singleton.2 rfl)

/-- C10: in `listDataset`, every `QueryApi` call of the run has `shouldGetUserProps =
(the user-properties flag is true) || (some requested output property has a ':' in its
name)`, and the run issues exactly one such call once the table format and the
classification of the arguments have succeeded. -/
theorem listDataset_shouldGetUserProps (env : Env) (api : Session) (options : FlagSet)
    (args : List String) :
    (∀ object targets types properties extras,
        Call.QueryApi object targets types properties extras
            ∈ (listDataset env api (.ok options) args).calls →
          extras.shouldGetUserProps
            = (env.IsStringTrue options.allFlags "user_properties"
                || (env.EnumerateOutputProperties options.allFlags).any
                    (fun prop => decide (':' ∈ prop.data))))
    ∧ (∀ format idTypes args2, env.GetTableFormat options.allFlags = .ok format →
        getDatasetListTypes env args = .ok (idTypes, args2) →
        ∃ extras, (listDataset env api (.ok options) args).calls
          = [Call.QueryApi "pool.dataset" args2 idTypes
              (env.EnumerateOutputProperties options.allFlags) extras]) := by
  refine ⟨?_, ?_⟩
  · intro object targets types properties extras hmem
    rw [listDataset_calls] at hmem
    cases hf : env.GetTableFormat options.allFlags with
    | error e => simp [hf] at hmem
    | ok format =>
      cases ht : getDatasetListTypes env args with
      | error e => simp [hf, ht] at hmem
      | ok r =>
        obtain ⟨idTypes, args2⟩ := r
        simp only [hf, ht, List.mem_singleton, Call.QueryApi.injEq] at hmem
        obtain ⟨-, -, -, -, rfl⟩ := hmem
        simp only [listDatasetExtras, forceUserProps_shouldGetUserProps]
  · intro format idTypes args2 hf ht
    exact ⟨_, by rw [listDataset_calls, hf, ht]⟩

/-- C10 at `dataset list -o name,custom:tag pool/a` without `-u`: the namespaced
property switches the retrieval of user properties on. -/
theorem listDataset_shouldGetUserProps_witness :
    (listDatasetExtras sampleEnv sampleListFlags ["pool/a"]
        ["name", "custom:tag"]).shouldGetUserProps = true :=
  (listDataset_shouldGetUserProps sampleEnv (sampleSession []) sampleListFlags ["pool/a"]).1
    "pool.dataset" ["pool/a"] ["name"] ["name", "custom:tag"]
    (listDatasetExtras sampleEnv sampleListFlags ["pool/a"] ["name", "custom:tag"])
    (List.mem_singleton.2 rfl)

/-! ### `createOrUpdateDataset` -/

theorem cmdTypeOf_update : cmdTypeOf datasetUpdateCmdUse = "update" := by decide

theorem cmdTypeOf_create : cmdTypeOf datasetCreateCmdUse = "create" := by decide

theorem identifyDatasets_ok (env : Env) (cmdType : String) (args : List String)
    (h : ∀ a ∈ args, (env.IdentifyObject a).1 = "dataset") :
    identifyDatasets env cmdType args
      = .ok (args.map (fun a => (env.IdentifyObject a).2), List.replicate args.length "name") := by
  induction args with
  | nil => rfl
  | cons a rest ih =>
    have hrest := ih (fun x hx => h x (List.mem_cons_of_mem a hx))
    simp [identifyDatasets, h a (List.mem_cons_self a rest), hrest, List.replicate_succ]

theorem identifyDatasets_error (env : Env) (cmdType : String) (pre : List String) (a : String)
    (post : List String) (hpre : ∀ x ∈ pre, (env.IdentifyObject x).1 = "dataset")
    (ha : (env.IdentifyObject a).1 ≠ "dataset") :
    identifyDatasets env cmdType (pre ++ a :: post)
      = .error ("dataset " ++ cmdType ++ " only operates on datasets ("
          ++ (env.IdentifyObject a).2 ++ " is a " ++ (env.IdentifyObject a).1 ++ ")") := by
  induction pre with
  | nil => simp [identifyDatasets, ha]
  | cons x rest ih =>
    have hrest := ih (fun y hy => hpre y (List.mem_cons_of_mem x hy))
    simp [identifyDatasets, hpre x (List.mem_cons_self x rest), hrest]

theorem createOrUpdateDataset_eq_dispatch (env : Env) (api : Session) (use : String)
    (options : FlagSet) (args specs types : List String) (outMap : AnyMap)
    (hcmd : cmdTypeOf use = "create" ∨ cmdTypeOf use = "update")
    (hid : identifyDatasets env (cmdTypeOf use) args = .ok (specs, types))
    (hpayload : buildPayload env options = .ok outMap) :
    createOrUpdateDataset env api use (.ok options) args
      = dispatch env api (cmdTypeOf use) (env.IsStringTrue options.allFlags "create") outMap
          specs types := by
  rcases hcmd with h | h <;> simp [createOrUpdateDataset, h] at hid ⊢ <;> simp [hid, hpayload]

/-- C6: in `createOrUpdateDataset` (command type create or update, flags read), when
the first argument that does not classify as a dataset is `a`, the command issues no
remote call and fails with the error "dataset <command type> only operates on datasets
(<normalized spec of a> is a <kind of a>)"; and when every argument classifies as a
dataset, the specs handed on are the normalized specs in argument order, each with type
tag "name". -/
theorem createOrUpdateDataset_namespec (env : Env) (api : Session) (use : String)
    (options : FlagSet) (args : List String)
    (hcmd : cmdTypeOf use = "create" ∨ cmdTypeOf use = "update") :
    (∀ pre a post, args = pre ++ a :: post →
        (∀ x ∈ pre, (env.IdentifyObject x).1 = "dataset") →
        (env.IdentifyObject a).1 ≠ "dataset" →
        createOrUpdateDataset env api use (.ok options) args
          = ⟨[], [], .error (.err ("dataset " ++ cmdTypeOf use ++ " only operates on datasets ("
              ++ (env.IdentifyObject a).2 ++ " is a " ++ (env.IdentifyObject a).1 ++ ")"))⟩)
    ∧ ((∀ a ∈ args, (env.IdentifyObject a).1 = "dataset") →
        identifyDatasets env (cmdTypeOf use) args
          = .ok (args.map (fun a => (env.IdentifyObject a).2),
              List.replicate args.length "name")
        ∧ ∀ outMap, buildPayload env options = .ok outMap →
          createOrUpdateDataset env api use (.ok options) args
            = dispatch env api (cmdTypeOf use) (env.IsStringTrue options.allFlags "create")
                outMap (args.map (fun a => (env.IdentifyObject a).2))
                (List.replicate args.length "name")) := by
  refine ⟨fun pre a post hargs hpre ha => ?_, fun hall => ⟨identifyDatasets_ok _ _ _ hall,
    fun outMap hp => createOrUpdateDataset_eq_dispatch env api use options args _ _ outMap hcmd
      (identifyDatasets_ok _ _ _ hall) hp⟩⟩
  have herr := identifyDatasets_error env (cmdTypeOf use) pre a post hpre ha
  rw [← hargs] at herr
  rcases hcmd with h | h <;> simp [createOrUpdateDataset, h] at herr ⊢ <;> simp [herr]

/-- C6 at `dataset create pool/a tank pool/b@s`: the pool `tank` is refused before the
snapshot is looked at, and nothing is sent. -/
theorem createOrUpdateDataset_namespec_witness :
    createOrUpdateDataset sampleEnv (sampleSession []) datasetCreateCmdUse
        (.ok sampleUpdateFlags) ["pool/a", "tank", "pool/b@s"]
      = ⟨[], [], .error (.err "dataset create only operates on datasets (tank is a pool)")⟩ :=
  (createOrUpdateDataset_namespec sampleEnv (sampleSession []) datasetCreateCmdUse
      sampleUpdateFlags ["pool/a", "tank", "pool/b@s"] (Or.inl (by decide))).1
    ["pool/a"] "tank" ["pool/b@s"] rfl (by decide) (by decide)

theorem splitExisting_create (resultsMap : List (String × AnyMap))
    (listToCreate listToUpdate specs : List String) :
    splitExisting true resultsMap listToCreate listToUpdate specs
      = .ok (listToCreate ++ specs.filter (fun spec => !hasKey resultsMap spec),
             listToUpdate ++ specs.filter (fun spec => hasKey resultsMap spec)) := by
  induction specs generalizing listToCreate listToUpdate with
  | nil => simp [splitExisting]
  | cons spec rest ih =>
    by_cases h : hasKey resultsMap spec = true
    · simp [splitExisting, h, ih]
    · simp [splitExisting, h, ih]

theorem splitExisting_all_found (resultsMap : List (String × AnyMap))
    (listToCreate listToUpdate specs : List String)
    (h : specs.find? (fun spec => !hasKey resultsMap spec) = none) :
    splitExisting false resultsMap listToCreate listToUpdate specs
      = .ok (listToCreate, listToUpdate ++ specs) := by
  induction specs generalizing listToUpdate with
  | nil => simp [splitExisting]
  | cons spec rest ih =>
    simp only [List.find?_cons] at h
    by_cases hk : hasKey resultsMap spec = true
    · simp only [hk, Bool.not_true] at h
      simp [splitExisting, hk, ih _ h]
    · simp [hk] at h

theorem splitExisting_not_found (resultsMap : List (String × AnyMap))
    (listToCreate listToUpdate specs : List String) (missing : String)
    (h : specs.find? (fun spec => !hasKey resultsMap spec) = some missing) :
    splitExisting false resultsMap listToCreate listToUpdate specs
      = .error ("Could not find dataset \"" ++ missing ++ "\".\n"
          ++ "Try passing -c or --create to create a dataset if it doesn't exist.") := by
  induction specs generalizing listToUpdate with
  | nil => simp at h
  | cons spec rest ih =>
    simp only [List.find?_cons] at h
    by_cases hk : hasKey resultsMap spec = true
    · simp only [hk, Bool.not_true] at h
      simp [splitExisting, hk, ih _ h]
    · simp only [Bool.not_eq_true] at hk
      simp only [hk, Bool.not_false, Option.some.injEq] at h
      subst h
      simp [splitExisting, hk]

theorem issueCreate_calls (env : Env) (api : Session) (outMap : AnyMap)
    (listToCreate : List String) (before : List Call) :
    (issueCreate env api outMap listToCreate before).calls
      = before ++ (if listToCreate.isEmpty then [] else [createCall env outMap listToCreate]) := by
  cases listToCreate with
  | nil => simp [issueCreate]
  | cons spec rest =>
    cases h : api.MaybeBulkApiCall (before ++ [createCall env outMap (spec :: rest)]) <;>
      simp [issueCreate, h]

theorem issueCalls_no_update (env : Env) (api : Session) (outMap : AnyMap)
    (listToCreate : List String) (before : List Call) :
    (issueCalls env api outMap listToCreate [] before).calls
      = before ++ (if listToCreate.isEmpty then [] else [createCall env outMap listToCreate]) := by
  simp [issueCalls, issueCreate_calls]

theorem issueCalls_update_ok (env : Env) (api : Session) (outMap : AnyMap)
    (listToCreate listToUpdate : List String) (before : List Call) (out : String)
    (hne : listToUpdate ≠ [])
    (hok : api.MaybeBulkApiCall (before ++ [updateCall env outMap listToUpdate]) = .ok out) :
    (issueCalls env api outMap listToCreate listToUpdate before).calls
      = before ++ [updateCall env outMap listToUpdate]
          ++ (if listToCreate.isEmpty then [] else [createCall env outMap listToCreate]) := by
  have hlen : listToUpdate.length > 0 := List.length_pos.2 hne
  simp [issueCalls, hlen, hok, issueCreate_calls]

theorem issueCalls_update_error (env : Env) (api : Session) (outMap : AnyMap)
    (listToCreate listToUpdate : List String) (before : List Call) (e : String)
    (hne : listToUpdate ≠ [])
    (herr : api.MaybeBulkApiCall (before ++ [updateCall env outMap listToUpdate]) = .error e) :
    issueCalls env api outMap listToCreate listToUpdate before
      = ⟨before ++ [updateCall env outMap listToUpdate], [], .error (.err e)⟩ := by
  have hlen : listToUpdate.length > 0 := List.length_pos.2 hne
  simp [issueCalls, hlen, herr]

theorem update_create_split_trace (env : Env) (api : Session) (options : FlagSet)
    (args specs types : List String) (outMap : AnyMap) (response : QueryResponse)
    (hcreate : env.IsStringTrue options.allFlags "create" = true)
    (hid : identifyDatasets env "update" args = .ok (specs, types))
    (hpayload : buildPayload env options = .ok outMap)
    (hquery : api.QueryApi [existenceQuery env specs types] = .ok response) :
    splitExisting true response.resultsMap [] [] specs
        = .ok (specs.filter (fun spec => !hasKey response.resultsMap spec),
               specs.filter (fun spec => hasKey response.resultsMap spec))
    ∧ (specs.filter (fun spec => hasKey response.resultsMap spec)).Sublist specs
    ∧ (specs.filter (fun spec => !hasKey response.resultsMap spec)).Sublist specs
    ∧ (specs.filter (fun spec => hasKey response.resultsMap spec)
        ++ specs.filter (fun spec => !hasKey response.resultsMap spec)).Perm specs
    ∧ (specs.filter (fun spec => hasKey response.resultsMap spec) = [] →
        (createOrUpdateDataset env api datasetUpdateCmdUse (.ok options) args).calls
          = [existenceQuery env specs types]
            ++ (if (specs.filter (fun spec => !hasKey response.resultsMap spec)).isEmpty then []
                else [createCall env outMap
                  (specs.filter (fun spec => !hasKey response.resultsMap spec))]))
    ∧ (specs.filter (fun spec => hasKey response.resultsMap spec) ≠ [] →
        ∀ out, api.MaybeBulkApiCall [existenceQuery env specs types,
            updateCall env outMap (specs.filter (fun spec => hasKey response.resultsMap spec))]
              = .ok out →
        (createOrUpdateDataset env api datasetUpdateCmdUse (.ok options) args).calls
          = [existenceQuery env specs types,
              updateCall env outMap (specs.filter (fun spec => hasKey response.resultsMap spec))]
            ++ (if (specs.filter (fun spec => !hasKey response.resultsMap spec)).isEmpty then []
                else [createCall env outMap
                  (specs.filter (fun spec => !hasKey response.resultsMap spec))]))
    ∧ (specs.filter (fun spec => hasKey response.resultsMap spec) ≠ [] →
        ∀ e, api.MaybeBulkApiCall [existenceQuery env specs types,
            updateCall env outMap (specs.filter (fun spec => hasKey response.resultsMap spec))]
              = .error e →
        createOrUpdateDataset env api datasetUpdateCmdUse (.ok options) args
          = ⟨[existenceQuery env specs types,
              updateCall env outMap (specs.filter (fun spec => hasKey response.resultsMap spec))],
             [], .error (.err e)⟩) := by
  have hsplit := splitExisting_create response.resultsMap [] [] specs
  simp only [List.nil_append] at hsplit
  have hrun : createOrUpdateDataset env api datasetUpdateCmdUse (.ok options) args
      = issueCalls env api outMap (specs.filter (fun spec => !hasKey response.resultsMap spec))
          (specs.filter (fun spec => hasKey response.resultsMap spec))
          [existenceQuery env specs types] := by
    rw [createOrUpdateDataset_eq_dispatch env api datasetUpdateCmdUse options args specs types
      outMap (Or.inr cmdTypeOf_update) (by rw [cmdTypeOf_update]; exact hid) hpayload]
    simp [dispatch, cmdTypeOf_update, hcreate, hquery, hsplit]
  refine ⟨hsplit, List.filter_sublist _, List.filter_sublist _, ?_, ?_, ?_, ?_⟩
  · exact List.filter_append_perm _ _
  · intro hnone
    rw [hrun, hnone, issueCalls_no_update]
  · intro hne out hok
    rw [hrun, issueCalls_update_ok env api outMap _ _ _ out hne hok]
    rfl
  · intro hne e herr
    rw [hrun]
    exact issueCalls_update_error env api outMap _ _ _ e hne herr

/-- C3: for `dataset update` with `--create` set, dataset specs `specs` and an existence
query answered by `response`: the loop leaves in `listToUpdate` the specs that are keys
of `response.resultsMap` and in `listToCreate` those that are not, each in argument
order, and together a rearrangement of `specs`; after the query the
`pool.dataset.update` call for `listToUpdate` is issued exactly when `listToUpdate` is
not empty, and after it (unless the update call failed, which ends the command) the
`pool.dataset.create` call for `listToCreate` exactly when `listToCreate` is not
empty. -/
theorem update_create_split (env : Env) (api : Session) (options : FlagSet)
    (args specs types : List String) (outMap : AnyMap) (response : QueryResponse)
    (hcreate : env.IsStringTrue options.allFlags "create" = true)
    (hid : identifyDatasets env "update" args = .ok (specs, types))
    (hpayload : buildPayload env options = .ok outMap)
    (hquery : api.QueryApi
        [(Call.QueryApi "pool.dataset" specs types []
              { valueOrder := env.BuildValueOrder true
                shouldGetAllProps := false
                shouldGetUserProps := false
                shouldRecurse := false })] = .ok response) :
    splitExisting true response.resultsMap [] [] specs
        = .ok (specs.filter (fun spec => !hasKey response.resultsMap spec),
               specs.filter (fun spec => hasKey response.resultsMap spec))
    ∧ (specs.filter (fun spec => hasKey response.resultsMap spec)).Sublist specs
    ∧ (specs.filter (fun spec => !hasKey response.resultsMap spec)).Sublist specs
    ∧ (specs.filter (fun spec => hasKey response.resultsMap spec)
        ++ specs.filter (fun spec => !hasKey response.resultsMap spec)).Perm specs
    ∧ (specs.filter (fun spec => hasKey response.resultsMap spec) = [] →
        (createOrUpdateDataset env api datasetUpdateCmdUse (.ok options) args).calls
          = [(Call.QueryApi "pool.dataset" specs types []
              { valueOrder := env.BuildValueOrder true
                shouldGetAllProps := false
                shouldGetUserProps := false
                shouldRecurse := false })]
            ++ (if (specs.filter (fun spec => !hasKey response.resultsMap spec)).isEmpty then []
                else [(Call.MaybeBulkApiCall "pool.dataset.create" 10 [.map (withType outMap)]
              [("name", env.ToAnyArray
                (specs.filter (fun spec => !hasKey response.resultsMap spec)))] false)]))
    ∧ (specs.filter (fun spec => hasKey response.resultsMap spec) ≠ [] →
        ∀ out, api.MaybeBulkApiCall
            [(Call.QueryApi "pool.dataset" specs types []
              { valueOrder := env.BuildValueOrder true
                shouldGetAllProps := false
                shouldGetUserProps := false
                shouldRecurse := false }),
             (Call.MaybeBulkApiCall "pool.dataset.update" 10 [.map outMap]
              [("", env.ToAnyArray
                (specs.filter (fun spec => hasKey response.resultsMap spec)))] false)] = .ok out →
        (createOrUpdateDataset env api datasetUpdateCmdUse (.ok options) args).calls
          = [(Call.QueryApi "pool.dataset" specs types []
              { valueOrder := env.BuildValueOrder true
                shouldGetAllProps := false
                shouldGetUserProps := false
                shouldRecurse := false }),
             (Call.MaybeBulkApiCall "pool.dataset.update" 10 [.map outMap]
              [("", env.ToAnyArray
                (specs.filter (fun spec => hasKey response.resultsMap spec)))] false)]
            ++ (if (specs.filter (fun spec => !hasKey response.resultsMap spec)).isEmpty then []
                else [(Call.MaybeBulkApiCall "pool.dataset.create" 10 [.map (withType outMap)]
              [("name", env.ToAnyArray
                (specs.filter (fun spec => !hasKey response.resultsMap spec)))] false)]))
    ∧ (specs.filter (fun spec => hasKey response.resultsMap spec) ≠ [] →
        ∀ e, api.MaybeBulkApiCall
            [(Call.QueryApi "pool.dataset" specs types []
              { valueOrder := env.BuildValueOrder true
                shouldGetAllProps := false
                shouldGetUserProps := false
                shouldRecurse := false }),
             (Call.MaybeBulkApiCall "pool.dataset.update" 10 [.map outMap]
              [("", env.ToAnyArray
                (specs.filter (fun spec => hasKey response.resultsMap spec)))] false)] = .error e →
        createOrUpdateDataset env api datasetUpdateCmdUse (.ok options) args
          = ⟨[(Call.QueryApi "pool.dataset" specs types []
              { valueOrder := env.BuildValueOrder true
                shouldGetAllProps := false
                shouldGetUserProps := false
                shouldRecurse := false }),
              (Call.MaybeBulkApiCall "pool.dataset.update" 10 [.map outMap]
              [("", env.ToAnyArray
                (specs.filter (fun spec => hasKey response.resultsMap spec)))] false)],
             [], .error (.err e)⟩) :=
  update_create_split_trace env api options args specs types outMap response hcreate hid
    hpayload hquery

/-- C3, the scenario of the specification: `update pool/a pool/missing --create` where only
`pool/a` exists issues the existence query, the `pool.dataset.update` call for `pool/a`
and then the `pool.dataset.create` call for `pool/missing`. -/
theorem update_create_split_witness :
    (createOrUpdateDataset sampleEnv (sampleSession ["pool/a"]) datasetUpdateCmdUse
        (.ok sampleUpdateCreateFlags) ["pool/a", "pool/missing"]).calls
      = [Call.QueryApi "pool.dataset" ["pool/a", "pool/missing"] ["name", "name"] []
          { valueOrder := ["rawvalue"]
            shouldGetAllProps := false
            shouldGetUserProps := false
            shouldRecurse := false },
         Call.MaybeBulkApiCall "pool.dataset.update" 10 [.map []]
          [("", [.str "pool/a"])] false,
         Call.MaybeBulkApiCall "pool.dataset.create" 10 [.map [("type", .str "FILESYSTEM")]]
          [("name", [.str "pool/missing"])] false] :=
  (update_create_split sampleEnv (sampleSession ["pool/a"]) sampleUpdateCreateFlags
      ["pool/a", "pool/missing"] ["pool/a", "pool/missing"] ["name", "name"] []
      ⟨[("pool/a", [])]⟩ (by decide) rfl rfl rfl).2.2.2.2.2.1 (by decide) "" rfl

/-- C4, as stated, fails for a single target: `dataset update pool/a` without `--create`,
on a service where `pool/a` does not exist, sends no existence query; it sends the
update call and returns without an error. -/
theorem update_single_target_no_query :
    (sampleSession []).QueryApi
        [Call.QueryApi "pool.dataset" ["pool/a"] ["name"] []
          { valueOrder := ["rawvalue"]
            shouldGetAllProps := false
            shouldGetUserProps := false
            shouldRecurse := false }] = .ok ⟨[]⟩
    ∧ createOrUpdateDataset sampleEnv (sampleSession []) datasetUpdateCmdUse
        (.ok sampleUpdateFlags) ["pool/a"]
      = ⟨[Call.MaybeBulkApiCall "pool.dataset.update" 10 [.map []]
            [("", [.str "pool/a"])] false], [], .ok ()⟩ :=
  ⟨rfl, rfl⟩

theorem update_without_create_trace (env : Env) (api : Session) (options : FlagSet)
    (args specs types : List String) (outMap : AnyMap)
    (hcreate : env.IsStringTrue options.allFlags "create" = false)
    (hid : identifyDatasets env "update" args = .ok (specs, types))
    (hpayload : buildPayload env options = .ok outMap) :
    (1 < specs.length →
        (createOrUpdateDataset env api datasetUpdateCmdUse (.ok options) args).calls
            = [existenceQuery env specs types]
          ∨ (createOrUpdateDataset env api datasetUpdateCmdUse (.ok options) args).calls
            = [existenceQuery env specs types, updateCall env outMap specs])
    ∧ (1 < specs.length → ∀ response missing,
        api.QueryApi [existenceQuery env specs types] = .ok response →
        specs.find? (fun spec => !hasKey response.resultsMap spec) = some missing →
        createOrUpdateDataset env api datasetUpdateCmdUse (.ok options) args
          = ⟨[existenceQuery env specs types], [],
              .error (.err ("Could not find dataset \"" ++ missing ++ "\".\n"
                ++ "Try passing -c or --create to create a dataset if it doesn't exist."))⟩)
    ∧ (∀ spec, specs = [spec] →
        (createOrUpdateDataset env api datasetUpdateCmdUse (.ok options) args).calls
          = [updateCall env outMap [spec]]) := by
  have hrun := createOrUpdateDataset_eq_dispatch env api datasetUpdateCmdUse options args specs
    types outMap (Or.inr cmdTypeOf_update) (by rw [cmdTypeOf_update]; exact hid) hpayload
  rw [hrun, cmdTypeOf_update, hcreate]
  refine ⟨fun hlen => ?_, fun hlen response missing hq hfind => ?_, fun spec hspec => ?_⟩
  · cases hq : api.QueryApi [existenceQuery env specs types] with
    | error e => left; simp [dispatch, hlen, hq]
    | ok response =>
      cases hfind : specs.find? (fun spec => !hasKey response.resultsMap spec) with
      | some missing =>
        left
        simp [dispatch, hlen, hq, splitExisting_not_found _ [] [] specs missing hfind]
      | none =>
        right
        have hne : specs ≠ [] := by
          intro h
          simp [h] at hlen
        have hpos : specs.length > 0 := List.length_pos.2 hne
        simp only [dispatch, hlen, hq, splitExisting_all_found _ [] [] specs hfind]
        cases hu : api.MaybeBulkApiCall
            [existenceQuery env specs types, updateCall env outMap specs] with
        | error e => simp [issueCalls, hpos, hu]
        | ok out => simp [issueCalls, hpos, hu, issueCreate]
  · simp [dispatch, hlen, hq, splitExisting_not_found _ [] [] specs missing hfind]
  · subst hspec
    cases hu : api.MaybeBulkApiCall [updateCall env outMap [spec]] with
    | error e => simp [dispatch, issueCalls, hu]
    | ok out => simp [dispatch, issueCalls, hu, issueCreate]

/-- C4, amended: for `dataset update` without `--create` and with more than one target,
the command first sends the existence query and nothing else but, when every target was
found, the update call; when `missing` is the first target that is not a key of the
answer's `resultsMap`, it sends only the query and fails with the "Could not find
dataset" error for `missing`.  With exactly one target it sends no query: its only call
is the update call for that target. -/
theorem update_without_create (env : Env) (api : Session) (options : FlagSet)
    (args specs types : List String) (outMap : AnyMap)
    (hcreate : env.IsStringTrue options.allFlags "create" = false)
    (hid : identifyDatasets env "update" args = .ok (specs, types))
    (hpayload : buildPayload env options = .ok outMap) :
    (1 < specs.length →
        (createOrUpdateDataset env api datasetUpdateCmdUse (.ok options) args).calls
            = [(Call.QueryApi "pool.dataset" specs types []
              { valueOrder := env.BuildValueOrder true
                shouldGetAllProps := false
                shouldGetUserProps := false
                shouldRecurse := false })]
          ∨ (createOrUpdateDataset env api datasetUpdateCmdUse (.ok options) args).calls
            = [(Call.QueryApi "pool.dataset" specs types []
              { valueOrder := env.BuildValueOrder true
                shouldGetAllProps := false
                shouldGetUserProps := false
                shouldRecurse := false }),
               Call.MaybeBulkApiCall "pool.dataset.update" 10 [.map outMap]
                [("", env.ToAnyArray specs)] false])
    ∧ (1 < specs.length → ∀ response missing,
        api.QueryApi [(Call.QueryApi "pool.dataset" specs types []
              { valueOrder := env.BuildValueOrder true
                shouldGetAllProps := false
                shouldGetUserProps := false
                shouldRecurse := false })] = .ok response →
        specs.find? (fun spec => !hasKey response.resultsMap spec) = some missing →
        createOrUpdateDataset env api datasetUpdateCmdUse (.ok options) args
          = ⟨[(Call.QueryApi "pool.dataset" specs types []
              { valueOrder := env.BuildValueOrder true
                shouldGetAllProps := false
                shouldGetUserProps := false
                shouldRecurse := false })], [],
              .error (.err ("Could not find dataset \"" ++ missing ++ "\".\n"
                ++ "Try passing -c or --create to create a dataset if it doesn't exist."))⟩)
    ∧ (∀ spec, specs = [spec] →
        (createOrUpdateDataset env api datasetUpdateCmdUse (.ok options) args).calls
          = [Call.MaybeBulkApiCall "pool.dataset.update" 10 [.map outMap]
              [("", env.ToAnyArray [spec])] false]) :=
  update_without_create_trace env api options args specs types outMap hcreate hid hpayload

/-- C4, amended, at `dataset update pool/a pool/missing` where only `pool/a` exists: the
query is sent, then the command fails and nothing is changed. -/
theorem update_without_create_witness :
    createOrUpdateDataset sampleEnv (sampleSession ["pool/a"]) datasetUpdateCmdUse
        (.ok sampleUpdateFlags) ["pool/a", "pool/missing"]
      = ⟨[Call.QueryApi "pool.dataset" ["pool/a", "pool/missing"] ["name", "name"] []
            { valueOrder := ["rawvalue"]
              shouldGetAllProps := false
              shouldGetUserProps := false
              shouldRecurse := false }], [],
          .error (.err ("Could not find dataset \"pool/missing\".\n"
            ++ "Try passing -c or --create to create a dataset if it doesn't exist."))⟩ :=
  (update_without_create sampleEnv (sampleSession ["pool/a"]) sampleUpdateFlags
      ["pool/a", "pool/missing"] ["pool/a", "pool/missing"] ["name", "name"] []
      (by decide) rfl rfl).2.1 (by decide) ⟨[("pool/a", [])]⟩ "pool/missing" rfl (by decide)

theorem encodeFlag_size_flags (env : Env) (outMap : AnyMap)
    (userPropsStr propName valueStr : String)
    (hname : propName = "quota" ∨ propName = "refquota" ∨ propName = "reservation"
      ∨ propName = "refreservation" ∨ propName = "volsize") :
    (∀ e, env.ParseSizeString valueStr = .error e →
        encodeFlag env outMap userPropsStr propName valueStr
          = .error ("Failed to parse " ++ propName ++ ": " ++ e))
    ∧ (∀ size, env.ParseSizeString valueStr = .ok size → size < 0 →
        encodeFlag env outMap userPropsStr propName valueStr
          = .error ("Failed to parse " ++ propName ++ ": negative numbers are not permitted"))
    ∧ (∀ size, env.ParseSizeString valueStr = .ok size → 0 ≤ size →
        encodeFlag env outMap userPropsStr propName valueStr
          = .ok (mapSet outMap propName (.int size), userPropsStr)) := by
  refine ⟨fun e he => ?_, fun size hs hneg => ?_, fun size hs hpos => ?_⟩
  · rcases hname with h | h | h | h | h <;> subst h <;> simp [encodeFlag, he]
  · rcases hname with h | h | h | h | h <;> subst h <;> simp [encodeFlag, hs, hneg]
  · have hn : ¬ size < 0 := not_lt.2 hpos
    rcases hname with h | h | h | h | h <;> subst h <;> simp [encodeFlag, hs, hn]

/-- C5, the flag special-small-block-size: under its canonical key
`special_small_block_size` the flag is not decoded by the size parser.  Whatever
`ParseSizeString` says of the value, the payload receives what
`ParseStringAndValidate` makes of it. -/
theorem encodeFlag_special_small_block_size (env : Env) (outMap : AnyMap)
    (userPropsStr valueStr : String) (value : Value)
    (hvalid : env.ParseStringAndValidate "special_small_block_size" valueStr
      env.g_datasetCreateUpdateEnums = .ok value) :
    encodeFlag env outMap userPropsStr "special_small_block_size" valueStr
      = .ok (mapSet outMap "special_small_block_size" value, userPropsStr) := by
  simp [encodeFlag, hvalid]

/-- C5 at `--special-small-block-size=-1`: the size parser reads a negative size, and
the flag is accepted with its text as the value. -/
theorem encodeFlag_special_small_block_size_witness :
    sampleEnv.ParseSizeString "-1" = .ok (-1)
    ∧ encodeFlag sampleEnv [] "" "special_small_block_size" "-1"
      = .ok ([("special_small_block_size", .str "-1")], "") :=
  ⟨rfl, encodeFlag_special_small_block_size sampleEnv [] "" "-1" (.str "-1") rfl⟩

theorem create_special_small_block_size_run :
    createOrUpdateDataset sampleEnv (sampleSession []) datasetCreateCmdUse
        (.ok sampleBlockSizeFlags) ["pool/a"]
      = ⟨[createCall sampleEnv [("special_small_block_size", .str "-1")] ["pool/a"]], [],
          .ok ()⟩ :=
  rfl

/-! ### `listSnapshot` and the flag user-properties -/

/-- C11: `listSnapshot` does not read the flag user-properties and does not look at the
names of the requested properties: every `QueryApi` call of the run has
`shouldGetUserProps = false`, and the run issues exactly one such call once the table
format and the classification of the arguments have succeeded. -/
theorem listSnapshot_shouldGetUserProps (env : Env) (api : Session) (options : FlagSet)
    (args : List String) :
    (∀ object targets types properties extras,
        Call.QueryApi object targets types properties extras
            ∈ (listSnapshot env api (.ok options) args).calls →
          extras.shouldGetUserProps = false)
    ∧ (∀ format idTypes args2, env.GetTableFormat options.allFlags = .ok format →
        getSnapshotListTypes env args = .ok (idTypes, args2) →
        ∃ extras, (listSnapshot env api (.ok options) args).calls
          = [Call.QueryApi "zfs.snapshot" args2 idTypes
              (env.EnumerateOutputProperties options.allFlags) extras]) := by
  refine ⟨?_, ?_⟩
  · intro object targets types properties extras hmem
    rw [listSnapshot_calls] at hmem
    cases hf : env.GetTableFormat options.allFlags with
    | error e => simp [hf] at hmem
    | ok format =>
      cases ht : getSnapshotListTypes env args with
      | error e => simp [hf, ht] at hmem
      | ok r =>
        obtain ⟨idTypes, args2⟩ := r
        simp only [hf, ht, List.mem_singleton, Call.QueryApi.injEq] at hmem
        obtain ⟨-, -, -, -, rfl⟩ := hmem
        rfl
  · intro format idTypes args2 hf ht
    exact ⟨_, by rw [listSnapshot_calls, hf, ht]⟩

/-- C11 at `snapshot list -u pool/a@s1`: the flag is set, and the query asks for no user
properties. -/
theorem listSnapshot_shouldGetUserProps_witness :
    sampleEnv.IsStringTrue sampleSnapshotListFlags.allFlags "user_properties" = true
    ∧ (listSnapshotExtras sampleEnv sampleSnapshotListFlags ["pool/a@s1"]).shouldGetUserProps
      = false :=
  ⟨by decide,
    (listSnapshot_shouldGetUserProps sampleEnv (sampleSession []) sampleSnapshotListFlags
      ["pool/a@s1"]).1 "zfs.snapshot" ["pool/a@s1"] ["name"] [""]
      (listSnapshotExtras sampleEnv sampleSnapshotListFlags ["pool/a@s1"])
      (List.mem_singleton.2 rfl)⟩

/-! ### `deleteOrRollbackSnapshot` -/

theorem cmdTypeOf_snapshotDelete : cmdTypeOf snapshotDeleteCmdUse = "delete" := by decide

theorem cmdTypeOf_snapshotRollback : cmdTypeOf snapshotRollbackCmdUse = "rollback" := by decide

theorem checkSnapshotArgs_ok (args : List String) (h : ∀ s ∈ args, 0 < stringsIndex s '@') :
    checkSnapshotArgs args = .ok () := by
  induction args with
  | nil => rfl
  | cons s rest ih =>
    have hs : ¬ stringsIndex s '@' ≤ 0 := not_le.2 (h s (List.mem_cons_self s rest))
    simp [checkSnapshotArgs, hs, ih (fun x hx => h x (List.mem_cons_of_mem s hx))]

theorem checkSnapshotArgs_error (pre : List String) (s : String) (post : List String)
    (hpre : ∀ x ∈ pre, 0 < stringsIndex x '@') (hs : stringsIndex s '@' ≤ 0) :
    checkSnapshotArgs (pre ++ s :: post)
      = .error ("No dataset name was found in snapshot specifier.\n"
          ++ "Expected <datasetname>@<snapshotname>.") := by
  induction pre with
  | nil => simp [checkSnapshotArgs, hs]
  | cons x rest ih =>
    have hx : ¬ stringsIndex x '@' ≤ 0 := not_le.2 (hpre x (List.mem_cons_self x rest))
    simp only [List.cons_append, checkSnapshotArgs, hx, if_false]
    exact ih (fun y hy => hpre y (List.mem_cons_of_mem x hy))

theorem deleteOrRollbackSnapshot_rejects (env : Env) (api : Session) (use : String)
    (options : FlagSet) (pre : List String) (s : String) (post : List String)
    (hcmd : cmdTypeOf use = "delete" ∨ cmdTypeOf use = "rollback")
    (hpre : ∀ x ∈ pre, 0 < stringsIndex x '@') (hs : stringsIndex s '@' ≤ 0) :
    deleteOrRollbackSnapshot env api use options (pre ++ s :: post)
      = ⟨[], [], .error (.err ("No dataset name was found in snapshot specifier.\n"
          ++ "Expected <datasetname>@<snapshotname>."))⟩ := by
  have herr := checkSnapshotArgs_error pre s post hpre hs
  rcases hcmd with h | h <;> simp [deleteOrRollbackSnapshot, h, herr]

theorem deleteOrRollbackSnapshot_sends_trace (env : Env) (api : Session) (use : String)
    (options : FlagSet) (snapshot0 : String) (rest : List String)
    (hcmd : cmdTypeOf use = "delete" ∨ cmdTypeOf use = "rollback")
    (hargs : ∀ s ∈ snapshot0 :: rest, 0 < stringsIndex s '@') :
    (deleteOrRollbackSnapshot env api use options (snapshot0 :: rest)).calls
      = [snapshotBulkCall env (cmdTypeOf use) options snapshot0 (snapshot0 :: rest)] := by
  have hok := checkSnapshotArgs_ok (snapshot0 :: rest) hargs
  rcases hcmd with h | h <;>
    cases hc : api.MaybeBulkApiCall
        [snapshotBulkCall env (cmdTypeOf use) options snapshot0 (snapshot0 :: rest)] <;>
    simp [deleteOrRollbackSnapshot, h, hok] <;> simp [h] at hc <;> simp [hc]

/-- C16: `deleteOrRollbackSnapshot` tests only that the first '@' of an argument is not
in front.  When every argument has its first '@' at a position above 0, whatever follows
the '@', and be it nothing, the command sends its one call with all the arguments. -/
theorem deleteOrRollbackSnapshot_sends (env : Env) (api : Session) (use : String)
    (options : FlagSet) (snapshot0 : String) (rest : List String)
    (hcmd : cmdTypeOf use = "delete" ∨ cmdTypeOf use = "rollback")
    (hargs : ∀ s ∈ snapshot0 :: rest, 0 < stringsIndex s '@') :
    (deleteOrRollbackSnapshot env api use options (snapshot0 :: rest)).calls
      = [Call.MaybeBulkApiCall ("zfs.snapshot." ++ cmdTypeOf use) 10
          (env.BuildNameStrAndPropertiesJson options snapshot0)
          [("", env.ToAnyArray (snapshot0 :: rest))] false] :=
  deleteOrRollbackSnapshot_sends_trace env api use options snapshot0 rest hcmd hargs

/-- C16 at `snapshot delete pool/a@`: nothing follows the '@', and the argument is sent
to `zfs.snapshot.delete`. -/
theorem deleteOrRollbackSnapshot_sends_witness :
    String.mk ("pool/a@".data.drop ("pool/a@".data.indexOf '@' + 1)) = ""
    ∧ (deleteOrRollbackSnapshot sampleEnv (sampleSession []) snapshotDeleteCmdUse
        sampleSnapshotDeleteFlags ["pool/a@"]).calls
      = [Call.MaybeBulkApiCall "zfs.snapshot.delete" 10
          (sampleEnv.BuildNameStrAndPropertiesJson sampleSnapshotDeleteFlags "pool/a@")
          [("", [.str "pool/a@"])] false] :=
  ⟨by decide,
    deleteOrRollbackSnapshot_sends sampleEnv (sampleSession []) snapshotDeleteCmdUse
      sampleSnapshotDeleteFlags "pool/a@" [] (Or.inl (by decide)) (by decide)⟩

/-! ### `createSnapshot` -/

theorem take_indexOf_append (c : Char) (l : List Char) (h : c ∈ l) :
    l.take (l.indexOf c) ++ c :: l.drop (l.indexOf c + 1) = l := by
  induction l with
  | nil => simp at h
  | cons x xs ih =>
    by_cases hx : x = c
    · subst hx
      simp
    · have hc : c ∈ xs := by
        rcases List.mem_cons.1 h with h1 | h1
        · exact absurd h1.symm hx
        · exact h1
      rw [List.indexOf_cons_ne _ hx]
      simp [ih hc]

theorem not_mem_take_indexOf (c : Char) (l : List Char) : c ∉ l.take (l.indexOf c) := by
  induction l with
  | nil => simp
  | cons x xs ih =>
    by_cases hx : x = c
    · subst hx
      simp
    · rw [List.indexOf_cons_ne _ hx]
      simp [ih, Ne.symm hx]

theorem stringsIndex_of_mem (s : String) (c : Char) (h : c ∈ s.data) :
    stringsIndex s c = (s.data.indexOf c : Int) := by
  simp [stringsIndex, h]

theorem stringsIndex_of_not_mem (s : String) (c : Char) (h : c ∉ s.data) :
    stringsIndex s c = -1 := by
  simp [stringsIndex, h]

theorem splitSnapshotArgs_cons_accepted (s : String) (rest : List String)
    (hmem : '@' ∈ s.data) (hfront : s.data.indexOf '@' ≠ 0)
    (hlast : s.data.indexOf '@' + 1 ≠ s.data.length) (hslash : s.data.head? ≠ some '/') :
    splitSnapshotArgs (s :: rest)
      = match splitSnapshotArgs rest with
        | .error e => .error e
        | .ok (datasetList, nameList) =>
          .ok (String.mk (s.data.take (s.data.indexOf '@')) :: datasetList,
               String.mk (s.data.drop (s.data.indexOf '@' + 1)) :: nameList) := by
  have hcond : ¬ ((s.data.indexOf '@' : Int) ≤ 0
      ∨ (s.data.indexOf '@' : Int) = (s.data.length : Int) - 1) := by omega
  simp only [splitSnapshotArgs, stringsIndex_of_mem s '@' hmem, hcond, hslash, if_false,
    Int.toNat_ofNat]

theorem splitSnapshotArgs_cons_rejected (s : String) (rest : List String)
    (h : ¬ ('@' ∈ s.data ∧ s.data.indexOf '@' ≠ 0
      ∧ s.data.indexOf '@' + 1 ≠ s.data.length ∧ s.data.head? ≠ some '/')) :
    ∃ msg, splitSnapshotArgs (s :: rest) = .error msg := by
  by_cases hmem : '@' ∈ s.data
  · by_cases hcond : (s.data.indexOf '@' : Int) ≤ 0
        ∨ (s.data.indexOf '@' : Int) = (s.data.length : Int) - 1
    · have herr : splitSnapshotArgs (s :: rest)
          = .error ("No dataset name was found in snapshot specifier.\n"
              ++ "Expected <datasetname>@<snapshotname>.") := by
        simp only [splitSnapshotArgs, stringsIndex_of_mem s '@' hmem, hcond, if_true]
      exact ⟨_, herr⟩
    · by_cases hslash : s.data.head? = some '/'
      · have herr : splitSnapshotArgs (s :: rest)
            = .error "Dataset names must not start with '/'." := by
          simp only [splitSnapshotArgs, stringsIndex_of_mem s '@' hmem, hcond, hslash, if_true,
            if_false]
        exact ⟨_, herr⟩
      · exact absurd ⟨hmem, by omega, by omega, hslash⟩ h
  · have hcond : ((-1 : Int) ≤ 0 ∨ (-1 : Int) = (s.data.length : Int) - 1) :=
      Or.inl (by decide)
    have herr : splitSnapshotArgs (s :: rest)
        = .error ("No dataset name was found in snapshot specifier.\n"
            ++ "Expected <datasetname>@<snapshotname>.") := by
      simp only [splitSnapshotArgs, stringsIndex_of_not_mem s '@' hmem, hcond, if_true]
    exact ⟨_, herr⟩

theorem splitSnapshotArgs_ok (args : List String)
    (h : ∀ s ∈ args, '@' ∈ s.data ∧ s.data.indexOf '@' ≠ 0
      ∧ s.data.indexOf '@' + 1 ≠ s.data.length ∧ s.data.head? ≠ some '/') :
    splitSnapshotArgs args
      = .ok (args.map (fun s => String.mk (s.data.take (s.data.indexOf '@'))),
             args.map (fun s => String.mk (s.data.drop (s.data.indexOf '@' + 1)))) := by
  induction args with
  | nil => rfl
  | cons s rest ih =>
    obtain ⟨h1, h2, h3, h4⟩ := h s (List.mem_cons_self s rest)
    rw [splitSnapshotArgs_cons_accepted s rest h1 h2 h3 h4,
      ih (fun x hx => h x (List.mem_cons_of_mem s hx))]
    rfl

theorem splitSnapshotArgs_ok_accepted (args : List String) (r : List String × List String)
    (h : splitSnapshotArgs args = .ok r) :
    ∀ s ∈ args, '@' ∈ s.data ∧ s.data.indexOf '@' ≠ 0
      ∧ s.data.indexOf '@' + 1 ≠ s.data.length ∧ s.data.head? ≠ some '/' := by
  induction args generalizing r with
  | nil => simp
  | cons s rest ih =>
    by_cases hs : '@' ∈ s.data ∧ s.data.indexOf '@' ≠ 0
        ∧ s.data.indexOf '@' + 1 ≠ s.data.length ∧ s.data.head? ≠ some '/'
    · rw [splitSnapshotArgs_cons_accepted s rest hs.1 hs.2.1 hs.2.2.1 hs.2.2.2] at h
      cases hr : splitSnapshotArgs rest with
      | error e => simp [hr] at h
      | ok r2 =>
        intro x hx
        rcases List.mem_cons.1 hx with rfl | hx
        · exact hs
        · exact ih r2 hr x hx
    · obtain ⟨msg, hmsg⟩ := splitSnapshotArgs_cons_rejected s rest hs
      rw [hmsg] at h
      cases h

theorem issueSnapshotCreate_calls (api : Session) (create : Call) (before : List Call) :
    (issueSnapshotCreate api create before).calls = before ++ [create] := by
  cases h : api.MaybeBulkApiCall (before ++ [create]) <;> simp [issueSnapshotCreate, h]

theorem createSnapshot_accepted (env : Env) (api : Session) (options : FlagSet)
    (arg0 : String) (rest datasetList nameList : List String) (dataset0 name0 : String)
    (hsplit : splitSnapshotArgs (arg0 :: rest) = .ok (dataset0 :: datasetList, name0 :: nameList)) :
    createSnapshot env api options (arg0 :: rest)
      = issueSnapshotCreate api
          (snapshotCreateCall env (snapshotPayload env options dataset0 name0)
            (dataset0 :: datasetList) (name0 :: nameList))
          (if env.IsStringTrue options.allFlags "delete" then
            [snapshotCleanupCall env arg0 (arg0 :: rest)] else []) := by
  simp only [createSnapshot, hsplit]
  split_ifs <;> rfl

/-- C12: in `createSnapshot` with `--delete` set and arguments that pass the checks, the
best-effort `zfs.snapshot.delete` call (`bestEffort = true`) is issued first and the
`zfs.snapshot.create` call second, whatever the service answers to the deletion; the
command returns the error of the `zfs.snapshot.create` call when that call fails, and no
error when it succeeds. -/
theorem createSnapshot_delete_best_effort (env : Env) (api : Session) (options : FlagSet)
    (arg0 : String) (rest datasetList nameList : List String) (dataset0 name0 : String)
    (hdelete : env.IsStringTrue options.allFlags "delete" = true)
    (hsplit : splitSnapshotArgs (arg0 :: rest) = .ok (dataset0 :: datasetList, name0 :: nameList)) :
    (createSnapshot env api options (arg0 :: rest)).calls
        = [(Call.MaybeBulkApiCall "zfs.snapshot.delete" 10
             [.str arg0, .map [("recursive", .bool true)]]
             [("", env.ToAnyArray (arg0 :: rest))] true),
           (Call.MaybeBulkApiCall "zfs.snapshot.create" 10
             [.map (snapshotPayload env options dataset0 name0)]
             [("dataset", env.ToAnyArray (dataset0 :: datasetList)),
              ("name", env.ToAnyArray (name0 :: nameList))] false)]
    ∧ (∀ e, api.MaybeBulkApiCall
          [(Call.MaybeBulkApiCall "zfs.snapshot.delete" 10
             [.str arg0, .map [("recursive", .bool true)]]
             [("", env.ToAnyArray (arg0 :: rest))] true),
           (Call.MaybeBulkApiCall "zfs.snapshot.create" 10
             [.map (snapshotPayload env options dataset0 name0)]
             [("dataset", env.ToAnyArray (dataset0 :: datasetList)),
              ("name", env.ToAnyArray (name0 :: nameList))] false)] = .error e →
        (createSnapshot env api options (arg0 :: rest)).result = .error (.err e))
    ∧ (∀ out, api.MaybeBulkApiCall
          [(Call.MaybeBulkApiCall "zfs.snapshot.delete" 10
             [.str arg0, .map [("recursive", .bool true)]]
             [("", env.ToAnyArray (arg0 :: rest))] true),
           (Call.MaybeBulkApiCall "zfs.snapshot.create" 10
             [.map (snapshotPayload env options dataset0 name0)]
             [("dataset", env.ToAnyArray (dataset0 :: datasetList)),
              ("name", env.ToAnyArray (name0 :: nameList))] false)] = .ok out →
        (createSnapshot env api options (arg0 :: rest)).result = .ok ()) := by
  rw [createSnapshot_accepted env api options arg0 rest datasetList nameList dataset0 name0
    hsplit]
  simp only [hdelete, if_true]
  refine ⟨?_, fun e he => ?_, fun out hout => ?_⟩
  · rw [issueSnapshotCreate_calls]
    rfl
  · have he2 : api.MaybeBulkApiCall
        [snapshotCleanupCall env arg0 (arg0 :: rest),
          snapshotCreateCall env (snapshotPayload env options dataset0 name0)
            (dataset0 :: datasetList) (name0 :: nameList)] = .error e := he
    simp [issueSnapshotCreate, he2]
  · have hout2 : api.MaybeBulkApiCall
        [snapshotCleanupCall env arg0 (arg0 :: rest),
          snapshotCreateCall env (snapshotPayload env options dataset0 name0)
            (dataset0 :: datasetList) (name0 :: nameList)] = .ok out := hout
    simp [issueSnapshotCreate, hout2]

/-- C12 at `snapshot create -d pool/a@s1` on a service without that snapshot: the
`zfs.snapshot.delete` call fails, the `zfs.snapshot.create` call is issued after it and
the command returns no error. -/
theorem createSnapshot_delete_best_effort_witness :
    sampleSessionNoSnapshot.MaybeBulkApiCall
        [Call.MaybeBulkApiCall "zfs.snapshot.delete" 10
          [.str "pool/a@s1", .map [("recursive", .bool true)]]
          [("", [.str "pool/a@s1"])] true] = .error "snapshot not found"
    ∧ createSnapshot sampleEnv sampleSessionNoSnapshot sampleSnapshotCreateFlags ["pool/a@s1"]
      = ⟨[Call.MaybeBulkApiCall "zfs.snapshot.delete" 10
            [.str "pool/a@s1", .map [("recursive", .bool true)]]
            [("", [.str "pool/a@s1"])] true,
          Call.MaybeBulkApiCall "zfs.snapshot.create" 10
            [.map [("dataset", .str "pool/a"), ("name", .str "s1"),
              ("recursive", .bool false), ("properties", .map [])]]
            [("dataset", [.str "pool/a"]), ("name", [.str "s1"])] false],
         [], .ok ()⟩
    ∧ (createSnapshot sampleEnv sampleSessionNoSnapshot sampleSnapshotCreateFlags
        ["pool/a@s1"]).result = .ok () :=
  ⟨rfl, rfl,
    (createSnapshot_delete_best_effort sampleEnv sampleSessionNoSnapshot
      sampleSnapshotCreateFlags "pool/a@s1" [] [] [] "pool/a" "s1" (by decide) rfl).2.2 "" rfl⟩

/-- C15: the loop of `createSnapshot` accepts an argument exactly when it has an '@',
its first '@' is neither in front nor the last character, and it does not begin with
'/'.  The lists `datasetList` and `nameList` then hold, argument by argument, the text
before the first '@' and the text after it: both are as long as `args`, and for an
accepted `s` the two texts are not empty, the first has no '@', and joined by "@" they
give `s` back.  When some argument is refused the command fails and issues no call; when
all are accepted its last call is the create call with the two lists. -/
theorem createSnapshot_arguments (env : Env) (api : Session) (options : FlagSet)
    (args : List String) :
    ((∃ r, splitSnapshotArgs args = .ok r) ↔
        ∀ s ∈ args, '@' ∈ s.data ∧ s.data.indexOf '@' ≠ 0
          ∧ s.data.indexOf '@' + 1 ≠ s.data.length ∧ s.data.head? ≠ some '/')
    ∧ (∀ datasetList nameList, splitSnapshotArgs args = .ok (datasetList, nameList) →
        datasetList = args.map (fun s => String.mk (s.data.take (s.data.indexOf '@')))
          ∧ nameList = args.map (fun s => String.mk (s.data.drop (s.data.indexOf '@' + 1)))
          ∧ datasetList.length = args.length ∧ nameList.length = args.length)
    ∧ (∀ s : String, '@' ∈ s.data → s.data.indexOf '@' ≠ 0 →
        s.data.indexOf '@' + 1 ≠ s.data.length →
        String.mk (s.data.take (s.data.indexOf '@')) ++ "@"
            ++ String.mk (s.data.drop (s.data.indexOf '@' + 1)) = s
          ∧ String.mk (s.data.take (s.data.indexOf '@')) ≠ ""
          ∧ String.mk (s.data.drop (s.data.indexOf '@' + 1)) ≠ ""
          ∧ '@' ∉ (String.mk (s.data.take (s.data.indexOf '@'))).data)
    ∧ ((¬ ∀ s ∈ args, '@' ∈ s.data ∧ s.data.indexOf '@' ≠ 0
          ∧ s.data.indexOf '@' + 1 ≠ s.data.length ∧ s.data.head? ≠ some '/') →
        ∃ msg, createSnapshot env api options args = ⟨[], [], .error (.err msg)⟩)
    ∧ ((∀ s ∈ args, '@' ∈ s.data ∧ s.data.indexOf '@' ≠ 0
          ∧ s.data.indexOf '@' + 1 ≠ s.data.length ∧ s.data.head? ≠ some '/') →
        args ≠ [] →
        ∃ outMap, (createSnapshot env api options args).calls.getLast?
          = some (Call.MaybeBulkApiCall "zfs.snapshot.create" 10 [.map outMap]
              [("dataset", env.ToAnyArray
                  (args.map (fun s => String.mk (s.data.take (s.data.indexOf '@'))))),
               ("name", env.ToAnyArray
                  (args.map (fun s => String.mk (s.data.drop (s.data.indexOf '@' + 1)))))]
              false)) := by
  refine ⟨⟨fun ⟨r, hr⟩ => splitSnapshotArgs_ok_accepted args r hr,
    fun h => ⟨_, splitSnapshotArgs_ok args h⟩⟩, ?_, ?_, ?_, ?_⟩
  · intro datasetList nameList hsplit
    have hacc := splitSnapshotArgs_ok_accepted args _ hsplit
    have := (splitSnapshotArgs_ok args hacc).symm.trans hsplit
    simp only [Except.ok.injEq, Prod.mk.injEq] at this
    refine ⟨this.1.symm, this.2.symm, ?_, ?_⟩
    · rw [← this.1, List.length_map]
    · rw [← this.2, List.length_map]
  · intro s hmem hfront hlast
    have hlt : s.data.indexOf '@' < s.data.length := List.indexOf_lt_length.2 hmem
    refine ⟨?_, ?_, ?_, not_mem_take_indexOf '@' s.data⟩
    · apply String.ext
      simp only [String.data_append]
      exact (List.append_assoc _ _ _).trans (take_indexOf_append '@' s.data hmem)
    · intro h
      have hd : s.data.take (s.data.indexOf '@') = [] := congrArg String.data h
      have hl := congrArg List.length hd
      simp only [List.length_take, List.length_nil] at hl
      omega
    · intro h
      have hd : s.data.drop (s.data.indexOf '@' + 1) = [] := congrArg String.data h
      have hl := congrArg List.length hd
      simp only [List.length_drop, List.length_nil] at hl
      omega
  · intro hnot
    cases hsplit : splitSnapshotArgs args with
    | error e => exact ⟨e, by simp [createSnapshot, hsplit]⟩
    | ok r => exact absurd (splitSnapshotArgs_ok_accepted args r hsplit) hnot
  · intro hacc hne
    cases args with
    | nil => exact absurd rfl hne
    | cons arg0 rest =>
      have hsplit := splitSnapshotArgs_ok (arg0 :: rest) hacc
      simp only [List.map_cons] at hsplit
      refine ⟨snapshotPayload env options
        (String.mk (arg0.data.take (arg0.data.indexOf '@')))
        (String.mk (arg0.data.drop (arg0.data.indexOf '@' + 1))), ?_⟩
      rw [createSnapshot_accepted env api options arg0 rest _ _ _ _ hsplit,
        issueSnapshotCreate_calls]
      simp [snapshotCreateCall]

/-- C15 at `snapshot create pool/a@s1 pool/b/c@daily`: both arguments are accepted and
split at their '@'. -/
theorem createSnapshot_arguments_witness :
    splitSnapshotArgs ["pool/a@s1", "pool/b/c@daily"]
      = .ok (["pool/a", "pool/b/c"], ["s1", "daily"]) :=
  ((createSnapshot_arguments sampleEnv (sampleSession []) sampleSnapshotCreateFlags
      ["pool/a@s1", "pool/b/c@daily"]).1.2 (by decide)).elim
    (fun _ _ => rfl)

/-! ### `renameSnapshot` -/

theorem issueRename_calls (env : Env) (api : Session) (source dest : String) :
    (issueRename env api source dest).calls = [renameCall env source dest] := by
  cases h : api.ApiCall [renameCall env source dest] <;> simp [issueRename, h]

/-- C14: `renameSnapshot`, for a source that `IdentifyObject` gives as `(srcType, source)`
and a destination it gives as `(dstType, dest)`, with `dsName` the text of `source`
before its first '@'.  A source that is not a snapshot fails with no call.  For a
snapshot source with an '@': a snapshot destination that does not start with
`dsName ++ "@"` fails with no call; a destination that is not a snapshot is sent as
`dsName ++ "@" ++ dest`; a snapshot destination that starts with `dsName ++ "@"` is sent
as it is.  Every destination sent to `zfs.snapshot.rename` starts with `dsName ++ "@"`. -/
theorem renameSnapshot_within_dataset (env : Env) (api : Session) (arg0 arg1 : String)
    (srcType source dstType dest : String)
    (hsrc : env.IdentifyObject arg0 = (srcType, source))
    (hdst : env.IdentifyObject arg1 = (dstType, dest)) :
    (srcType ≠ "snapshot" →
        renameSnapshot env api [arg0, arg1]
          = ⟨[], [], .error (.err ("\"" ++ source ++ "\" is not a snapshot"))⟩)
    ∧ (srcType = "snapshot" → '@' ∈ source.data →
        (dstType = "snapshot" →
          stringsHasPrefix dest
            (String.mk (source.data.take (source.data.indexOf '@')) ++ "@") = false →
          renameSnapshot env api [arg0, arg1]
            = ⟨[], [], .error (.err
                ("The destination snapshot does not share the same dataset as the source.\n"
                  ++ "Try leaving out the dataset name in the destination."))⟩)
        ∧ (dstType ≠ "snapshot" →
          (renameSnapshot env api [arg0, arg1]).calls
            = [Call.ApiCall "zfs.snapshot.rename" env.defaultCallTimeout
                [.str source,
                 .str (String.mk (source.data.take (source.data.indexOf '@')) ++ "@" ++ dest)]])
        ∧ (dstType = "snapshot" →
          stringsHasPrefix dest
            (String.mk (source.data.take (source.data.indexOf '@')) ++ "@") = true →
          (renameSnapshot env api [arg0, arg1]).calls
            = [Call.ApiCall "zfs.snapshot.rename" env.defaultCallTimeout
                [.str source, .str dest]])
        ∧ (∀ method timeout src dst,
            Call.ApiCall method timeout [.str src, .str dst]
              ∈ (renameSnapshot env api [arg0, arg1]).calls →
            (String.mk (source.data.take (source.data.indexOf '@')) ++ "@").data
              <+: dst.data)) := by
  refine ⟨fun hs => ?_, fun hs hmem => ?_⟩
  · simp [renameSnapshot, hsrc, hs]
  · have hidx : ¬ stringsIndex source '@' < 0 := by
      rw [stringsIndex_of_mem source '@' hmem]
      omega
    have hnat : (stringsIndex source '@').toNat = source.data.indexOf '@' := by
      rw [stringsIndex_of_mem source '@' hmem, Int.toNat_ofNat]
    have hbad : ∀ (hd : dstType = "snapshot")
        (hp : stringsHasPrefix dest
          (String.mk (source.data.take (source.data.indexOf '@')) ++ "@") = false),
        renameSnapshot env api [arg0, arg1]
          = ⟨[], [], .error (.err
              ("The destination snapshot does not share the same dataset as the source.\n"
                ++ "Try leaving out the dataset name in the destination."))⟩ := by
      intro hd hp
      simp [renameSnapshot, hsrc, hdst, hs, hd, hidx, hnat, hp]
    have hjoin : dstType ≠ "snapshot" →
        (renameSnapshot env api [arg0, arg1]).calls
          = [renameCall env source
              (String.mk (source.data.take (source.data.indexOf '@')) ++ "@" ++ dest)] := by
      intro hd
      simp [renameSnapshot, hsrc, hdst, hs, hd, hidx, hnat, issueRename_calls]
    have hkeep : dstType = "snapshot" →
        stringsHasPrefix dest
          (String.mk (source.data.take (source.data.indexOf '@')) ++ "@") = true →
        (renameSnapshot env api [arg0, arg1]).calls = [renameCall env source dest] := by
      intro hd hp
      simp [renameSnapshot, hsrc, hdst, hs, hd, hidx, hnat, hp, issueRename_calls]
    refine ⟨hbad, hjoin, hkeep, ?_⟩
    intro method timeout src dst hcall
    by_cases hd : dstType = "snapshot"
    · cases hp : stringsHasPrefix dest
          (String.mk (source.data.take (source.data.indexOf '@')) ++ "@") with
      | false =>
        rw [hbad hd hp] at hcall
        simp at hcall
      | true =>
        rw [hkeep hd hp] at hcall
        simp only [renameCall, List.mem_singleton, Call.ApiCall.injEq, List.cons.injEq,
          Value.str.injEq, and_true] at hcall
        obtain ⟨-, -, -, rfl⟩ := hcall
        exact List.isPrefixOf_iff_prefix.1 hp
    · rw [hjoin hd] at hcall
      simp only [renameCall, List.mem_singleton, Call.ApiCall.injEq, List.cons.injEq,
        Value.str.injEq, and_true] at hcall
      obtain ⟨-, -, -, rfl⟩ := hcall
      rw [String.data_append]
      exact List.prefix_append _ _

/-- C14 at `snapshot rename pool/a@s1 s2`: the new name is sent as `pool/a@s2`. -/
theorem renameSnapshot_within_dataset_witness :
    (renameSnapshot sampleEnv (sampleSession []) ["pool/a@s1", "s2"]).calls
      = [Call.ApiCall "zfs.snapshot.rename" 10 [.str "pool/a@s1", .str "pool/a@s2"]] :=
  ((renameSnapshot_within_dataset sampleEnv (sampleSession []) "pool/a@s1" "s2"
      "snapshot" "pool/a@s1" "pool" "s2" rfl rfl).2 rfl (by decide)).2.1 (by decide)

/-! ### The type of a created dataset -/

theorem lookup_map_of_hasKey (m : AnyMap) (k : String) (v : Value) (h : hasKey m k = true) :
    (m.map (fun entry => if entry.1 == k then (k, v) else entry)).lookup k = some v := by
  induction m with
  | nil => simp [hasKey] at h
  | cons e es ih =>
    obtain ⟨a, b⟩ := e
    by_cases he : a = k
    · subst he
      have hstep : (if (a == a) = true then (a, v) else (a, b)) = (a, v) := by
        simp
      rw [List.map_cons, hstep, List.lookup_cons, beq_self_eq_true]
    · have hes : hasKey es k = true := by
        simpa [hasKey, he] using h
      have hne : (k == a) = false := by
        simpa using fun hk : k = a => he hk.symm
      have hstep : (if (a == k) = true then (k, v) else (a, b)) = (a, b) := by
        simp [he]
      rw [List.map_cons, hstep, List.lookup_cons, hne]
      exact ih hes

theorem lookup_append_of_not_hasKey (m : AnyMap) (k : String) (v : Value)
    (h : hasKey m k = false) : (m ++ [(k, v)]).lookup k = some v := by
  induction m with
  | nil => simp [List.lookup]
  | cons e es ih =>
    obtain ⟨a, b⟩ := e
    have he : ¬ a = k := by
      intro hk
      simp [hasKey, hk] at h
    have hes : hasKey es k = false := by
      simpa [hasKey, he] using h
    have hne : (k == a) = false := by
      simpa using fun hk : k = a => he hk.symm
    rw [List.cons_append, List.lookup_cons, hne]
    exact ih hes

theorem lookup_mapSet (m : AnyMap) (k : String) (v : Value) :
    (mapSet m k v).lookup k = some v := by
  unfold mapSet
  cases h : hasKey m k with
  | true => simpa using lookup_map_of_hasKey m k v h
  | false => simpa using lookup_append_of_not_hasKey m k v h

theorem hasKey_map_ne (m : AnyMap) (k other : String) (v : Value) (h : other ≠ k) :
    hasKey (m.map (fun entry => if entry.1 == k then (k, v) else entry)) other
      = hasKey m other := by
  induction m with
  | nil => rfl
  | cons e es ih =>
    obtain ⟨a, b⟩ := e
    have hko : (k == other) = false := by
      simpa using fun hk : k = other => h hk.symm
    simp only [hasKey] at ih
    by_cases he : a = k
    · subst he
      simp only [hasKey, List.map_cons, List.any_cons, beq_self_eq_true, if_true, hko,
        Bool.false_or]
      exact ih
    · have hstep : (if (a == k) = true then (k, v) else (a, b)) = (a, b) := by
        simp [he]
      simp only [hasKey, List.map_cons, List.any_cons, hstep]
      rw [ih]

theorem hasKey_mapSet_ne (m : AnyMap) (k other : String) (v : Value) (h : other ≠ k) :
    hasKey (mapSet m k v) other = hasKey m other := by
  unfold mapSet
  cases hk : hasKey m k with
  | true =>
    simp only [if_true]
    exact hasKey_map_ne m k other v h
  | false =>
    have h2 : ¬ k = other := fun ho => h ho.symm
    simp [hasKey, h2]

theorem withType_lookup (outMap : AnyMap) :
    (withType outMap).lookup "type"
        = some (.str (if hasKey (withType outMap) "volsize" then "VOLUME" else "FILESYSTEM"))
      ∧ hasKey (withType outMap) "volsize" = hasKey outMap "volsize" := by
  have hkey : hasKey (withType outMap) "volsize" = hasKey outMap "volsize" := by
    unfold withType
    split_ifs <;> exact hasKey_mapSet_ne _ _ _ _ (by decide)
  refine ⟨?_, hkey⟩
  rw [hkey]
  unfold withType
  split_ifs with h
  · exact lookup_mapSet _ _ _
  · exact lookup_mapSet _ _ _

theorem issueCalls_mem (env : Env) (api : Session) (outMap : AnyMap)
    (listToCreate listToUpdate : List String) (before : List Call) (c : Call)
    (h : c ∈ (issueCalls env api outMap listToCreate listToUpdate before).calls) :
    c ∈ before ∨ c = updateCall env outMap listToUpdate
      ∨ c = createCall env outMap listToCreate := by
  unfold issueCalls at h
  split_ifs at h with hlen
  · cases hu : api.MaybeBulkApiCall (before ++ [updateCall env outMap listToUpdate]) with
    | error e =>
      simp only [hu, List.mem_append, List.mem_singleton] at h
      rcases h with h | h
      · exact Or.inl h
      · exact Or.inr (Or.inl h)
    | ok out =>
      simp only [hu, issueCreate_calls, List.mem_append, List.mem_singleton] at h
      rcases h with (h | h) | h
      · exact Or.inl h
      · exact Or.inr (Or.inl h)
      · split_ifs at h
        · simp at h
        · exact Or.inr (Or.inr (List.mem_singleton.1 h))
  · simp only [issueCreate_calls, List.mem_append] at h
    rcases h with h | h
    · exact Or.inl h
    · split_ifs at h
      · simp at h
      · exact Or.inr (Or.inr (List.mem_singleton.1 h))

theorem dispatch_mem (env : Env) (api : Session) (cmdType : String) (flagCreate : Bool)
    (outMap : AnyMap) (specs types : List String) (c : Call)
    (h : c ∈ (dispatch env api cmdType flagCreate outMap specs types).calls) :
    c = existenceQuery env specs types ∨ (∃ listToUpdate, c = updateCall env outMap listToUpdate)
      ∨ (∃ listToCreate, c = createCall env outMap listToCreate) := by
  unfold dispatch at h
  split_ifs at h with h1 h2
  · rcases issueCalls_mem _ _ _ _ _ _ _ h with h | h | h
    · simp at h
    · exact Or.inr (Or.inl ⟨_, h⟩)
    · exact Or.inr (Or.inr ⟨_, h⟩)
  · cases hq : api.QueryApi [existenceQuery env specs types] with
    | error e =>
      simp only [hq, List.mem_singleton] at h
      exact Or.inl h
    | ok response =>
      cases hs : splitExisting flagCreate response.resultsMap [] [] specs with
      | error e =>
        simp only [hq, hs, List.mem_singleton] at h
        exact Or.inl h
      | ok r =>
        obtain ⟨listToCreate, listToUpdate⟩ := r
        simp only [hq, hs] at h
        rcases issueCalls_mem _ _ _ _ _ _ _ h with h | h | h
        · exact Or.inl (List.mem_singleton.1 h)
        · exact Or.inr (Or.inl ⟨_, h⟩)
        · exact Or.inr (Or.inr ⟨_, h⟩)
  · rcases issueCalls_mem _ _ _ _ _ _ _ h with h | h | h
    · simp at h
    · exact Or.inr (Or.inl ⟨_, h⟩)
    · exact Or.inr (Or.inr ⟨_, h⟩)

theorem createOrUpdateDataset_mem (env : Env) (api : Session) (use : String)
    (flags : Except String FlagSet) (args : List String) (c : Call)
    (h : c ∈ (createOrUpdateDataset env api use flags args).calls) :
    ∃ options outMap, flags = .ok options ∧ buildPayload env options = .ok outMap
      ∧ ((∃ specs types, c = existenceQuery env specs types)
        ∨ (∃ listToUpdate, c = updateCall env outMap listToUpdate)
        ∨ (∃ listToCreate, c = createCall env outMap listToCreate)) := by
  unfold createOrUpdateDataset at h
  simp only at h
  split_ifs at h with hcmd
  · simp at h
  · cases flags with
    | error e => simp at h
    | ok options =>
      cases hid : identifyDatasets env (cmdTypeOf use) args with
      | error e => simp [hid] at h
      | ok r =>
        obtain ⟨specs, types⟩ := r
        cases hp : buildPayload env options with
        | error f => simp [hid, hp] at h
        | ok outMap =>
          simp only [hid, hp] at h
          refine ⟨options, outMap, rfl, hp, ?_⟩
          rcases dispatch_mem _ _ _ _ _ _ _ _ h with h | h | h
          · exact Or.inl ⟨_, _, h⟩
          · exact Or.inr (Or.inl h)
          · exact Or.inr (Or.inr h)

theorem encodeFlag_no_volsize (env : Env) (outMap : AnyMap)
    (userPropsStr propName valueStr : String) (r : AnyMap × String)
    (hname : propName ≠ "volsize")
    (hoption : propName = "option" → ∀ m m2, hasKey m "volsize" = false →
      env.WriteKvArrayToMap m (env.ConvertParamsStringToKvArray valueStr)
        env.g_datasetCreateUpdateEnums = .ok m2 → hasKey m2 "volsize" = false)
    (hno : hasKey outMap "volsize" = false)
    (h : encodeFlag env outMap userPropsStr propName valueStr = .ok r) :
    hasKey r.1 "volsize" = false := by
  have hvol : ("volsize" : String) ≠ propName := fun hv => hname hv.symm
  unfold encodeFlag at h
  split_ifs at h with h1 h2 h3 h4
  · simp only [Except.ok.injEq] at h
    rw [← h]
    exact (hasKey_mapSet_ne _ _ _ _ (by decide)).trans hno
  · cases hs : env.ParseSizeString valueStr with
    | error e => simp [hs] at h
    | ok size =>
      simp only [hs] at h
      split_ifs at h
      simp only [Except.ok.injEq] at h
      rw [← h]
      exact (hasKey_mapSet_ne _ _ _ _ hvol).trans hno
  · simp only [Except.ok.injEq] at h
    rw [← h]
    exact hno
  · cases hw : env.WriteKvArrayToMap outMap (env.ConvertParamsStringToKvArray valueStr)
        env.g_datasetCreateUpdateEnums with
    | error e => simp [hw] at h
    | ok m2 =>
      simp only [hw, Except.ok.injEq] at h
      rw [← h]
      exact hoption h4 outMap m2 hno hw
  · cases hv : env.ParseStringAndValidate propName valueStr env.g_datasetCreateUpdateEnums with
    | error e => simp [hv] at h
    | ok value =>
      simp only [hv, Except.ok.injEq] at h
      rw [← h]
      exact (hasKey_mapSet_ne _ _ _ _ hvol).trans hno

theorem encodeFlags_no_volsize (env : Env) (visited : StrMap) (outMap : AnyMap)
    (userPropsStr : String) (r : AnyMap × String)
    (hname : ∀ e ∈ visited, e.1 ≠ "volsize")
    (hoption : ∀ e ∈ visited, e.1 = "option" → ∀ m m2, hasKey m "volsize" = false →
      env.WriteKvArrayToMap m (env.ConvertParamsStringToKvArray e.2)
        env.g_datasetCreateUpdateEnums = .ok m2 → hasKey m2 "volsize" = false)
    (hno : hasKey outMap "volsize" = false)
    (h : encodeFlags env outMap userPropsStr visited = .ok r) :
    hasKey r.1 "volsize" = false := by
  induction visited generalizing outMap userPropsStr with
  | nil =>
    simp only [encodeFlags, Except.ok.injEq] at h
    rw [← h]
    exact hno
  | cons e rest ih =>
    obtain ⟨propName, valueStr⟩ := e
    simp only [encodeFlags] at h
    cases hstep : encodeFlag env outMap userPropsStr propName valueStr with
    | error err => simp [hstep] at h
    | ok r2 =>
      obtain ⟨outMap2, userPropsStr2⟩ := r2
      simp only [hstep] at h
      exact ih outMap2 userPropsStr2
        (fun x hx => hname x (List.mem_cons_of_mem _ hx))
        (fun x hx => hoption x (List.mem_cons_of_mem _ hx))
        (encodeFlag_no_volsize env outMap userPropsStr propName valueStr _
          (hname _ (List.mem_cons_self _ _)) (hoption _ (List.mem_cons_self _ _)) hno hstep)
        h

theorem buildPayload_no_volsize (env : Env) (options : FlagSet) (outMap : AnyMap)
    (hname : ∀ e ∈ (env.RemoveFlag (env.RemoveFlag options "create")
      "allow_shrinking").usedFlags, e.1 ≠ "volsize")
    (hoption : ∀ e ∈ (env.RemoveFlag (env.RemoveFlag options "create")
        "allow_shrinking").usedFlags, e.1 = "option" →
      ∀ m m2, hasKey m "volsize" = false →
        env.WriteKvArrayToMap m (env.ConvertParamsStringToKvArray e.2)
          env.g_datasetCreateUpdateEnums = .ok m2 → hasKey m2 "volsize" = false)
    (h : buildPayload env options = .ok outMap) :
    hasKey outMap "volsize" = false := by
  unfold buildPayload at h
  simp only at h
  cases he : encodeFlags env [] ""
      (env.RemoveFlag (env.RemoveFlag options "create") "allow_shrinking").usedFlags with
  | error e => simp [he] at h
  | ok r =>
    obtain ⟨outMap1, userPropsStr⟩ := r
    have hno := encodeFlags_no_volsize env _ [] "" _ hname hoption rfl he
    simp only [he, addUserProps] at h
    split_ifs at h
    · cases hu : userPropsLoop env [] (env.ConvertParamsStringToKvArray userPropsStr) with
      | error f => simp [hu] at h
      | ok userPropsArr =>
        simp only [hu, Except.ok.injEq] at h
        rw [← h]
        exact (hasKey_mapSet_ne _ _ _ _ (by decide)).trans hno
    · simp only [Except.ok.injEq] at h
      rw [← h]
      exact hno

theorem create_call_payload (env : Env) (api : Session) (use : String)
    (flags : Except String FlagSet) (args : List String) (timeout : Int) (params : List Value)
    (objRemap : List (String × List Value)) (bestEffort : Bool)
    (h : Call.MaybeBulkApiCall "pool.dataset.create" timeout params objRemap bestEffort
      ∈ (createOrUpdateDataset env api use flags args).calls) :
    ∃ options outMap, flags = .ok options ∧ buildPayload env options = .ok outMap
      ∧ params = [.map (withType outMap)] := by
  obtain ⟨options, outMap, hflags, hp, hc⟩ := createOrUpdateDataset_mem env api use flags args _ h
  refine ⟨options, outMap, hflags, hp, ?_⟩
  rcases hc with ⟨specs, types, hc⟩ | ⟨listToUpdate, hc⟩ | ⟨listToCreate, hc⟩
  · simp [existenceQuery] at hc
  · simp [updateCall] at hc
  · simp only [createCall, Call.MaybeBulkApiCall.injEq] at hc
    exact hc.2.2.1

/-- C13: every `pool.dataset.create` call that `createOrUpdateDataset` issues carries one
payload, whose entry "type" is "VOLUME" when the payload has an entry "volsize" and
"FILESYSTEM" when it has none.  In particular, when no flag visited by the loop over
`usedFlags` is `volsize` and no `option` flag writes a `volsize` entry, the payload has
no `volsize` entry and the type is "FILESYSTEM". -/
theorem create_type_follows_volsize (env : Env) (api : Session) (use : String)
    (flags : Except String FlagSet) (args : List String) :
    (∀ timeout params objRemap bestEffort,
        Call.MaybeBulkApiCall "pool.dataset.create" timeout params objRemap bestEffort
          ∈ (createOrUpdateDataset env api use flags args).calls →
        ∃ payload, params = [.map payload]
          ∧ payload.lookup "type"
            = some (.str (if hasKey payload "volsize" then "VOLUME" else "FILESYSTEM")))
    ∧ (∀ options, flags = .ok options →
        (∀ e ∈ (env.RemoveFlag (env.RemoveFlag options "create")
          "allow_shrinking").usedFlags, e.1 ≠ "volsize") →
        (∀ e ∈ (env.RemoveFlag (env.RemoveFlag options "create")
            "allow_shrinking").usedFlags, e.1 = "option" →
          ∀ m m2, hasKey m "volsize" = false →
            env.WriteKvArrayToMap m (env.ConvertParamsStringToKvArray e.2)
              env.g_datasetCreateUpdateEnums = .ok m2 → hasKey m2 "volsize" = false) →
        ∀ timeout params objRemap bestEffort,
          Call.MaybeBulkApiCall "pool.dataset.create" timeout params objRemap bestEffort
            ∈ (createOrUpdateDataset env api use flags args).calls →
          ∃ payload, params = [.map payload] ∧ hasKey payload "volsize" = false
            ∧ payload.lookup "type" = some (.str "FILESYSTEM")) := by
  refine ⟨fun timeout params objRemap bestEffort h => ?_,
    fun options hflags hname hoption timeout params objRemap bestEffort h => ?_⟩
  · obtain ⟨options, outMap, -, -, hparams⟩ :=
      create_call_payload env api use flags args timeout params objRemap bestEffort h
    exact ⟨withType outMap, hparams, (withType_lookup outMap).1⟩
  · obtain ⟨options2, outMap, hflags2, hp, hparams⟩ :=
      create_call_payload env api use flags args timeout params objRemap bestEffort h
    have hopt : options2 = options := by
      rw [hflags] at hflags2
      exact (Except.ok.inj hflags2).symm
    subst hopt
    have hno := buildPayload_no_volsize env options2 outMap hname hoption hp
    have hkey : hasKey (withType outMap) "volsize" = false :=
      (withType_lookup outMap).2.trans hno
    refine ⟨withType outMap, hparams, hkey, ?_⟩
    have hl := (withType_lookup outMap).1
    rw [hkey] at hl
    simpa using hl

/-- C13 at `dataset create pool/a` and at `dataset create -V 1024 pool/a`: the first
creates a filesystem, the second a volume. -/
theorem create_type_follows_volsize_witness :
    (createOrUpdateDataset sampleEnv (sampleSession []) datasetCreateCmdUse
        (.ok sampleCreateFlags) ["pool/a"]).calls
      = [Call.MaybeBulkApiCall "pool.dataset.create" 10 [.map [("type", .str "FILESYSTEM")]]
          [("name", [.str "pool/a"])] false]
    ∧ (createOrUpdateDataset sampleEnv (sampleSession []) datasetCreateCmdUse
        (.ok sampleVolumeFlags) ["pool/a"]).calls
      = [Call.MaybeBulkApiCall "pool.dataset.create" 10
          [.map [("volsize", .int 1024), ("type", .str "VOLUME")]]
          [("name", [.str "pool/a"])] false]
    ∧ (∃ payload, [Value.map [("type", .str "FILESYSTEM")]] = [.map payload]
        ∧ hasKey payload "volsize" = false
        ∧ payload.lookup "type" = some (.str "FILESYSTEM"))
    ∧ ∃ payload, [Value.map [("volsize", .int 1024), ("type", .str "VOLUME")]] = [.map payload]
        ∧ payload.lookup "type"
          = some (.str (if hasKey payload "volsize" then "VOLUME" else "FILESYSTEM")) :=
  ⟨rfl, rfl,
    (create_type_follows_volsize sampleEnv (sampleSession []) datasetCreateCmdUse
      (.ok sampleCreateFlags) ["pool/a"]).2 sampleCreateFlags rfl
      (fun e he => absurd he (List.not_mem_nil e))
      (fun e he => absurd he (List.not_mem_nil e))
      10 _ [("name", [.str "pool/a"])] false (List.mem_singleton.2 rfl),
    (create_type_follows_volsize sampleEnv (sampleSession []) datasetCreateCmdUse
      (.ok sampleVolumeFlags) ["pool/a"]).1 10 _ [("name", [.str "pool/a"])] false
      (List.mem_singleton.2 rfl)⟩

end TruenasIncusCtl
